import Mathlib

/-!
Verification development for the quiz-generation pipeline
(`ai_pipeline.py`, `question_generator.py`, `question_evaluator.py`).

The Python code is shallowly embedded: JSON/Python values become the
inductive `JVal`, question dictionaries become the record `PyDictQ`
(one field per key the code consults; other keys are carried unchanged
by the source and play no role), fallible code returns
`Except PyErr _` (an `error` models an uncaught Python exception), and
network calls (`run_ollama`) are replaced by oracle parameters holding
the raw text the model returned, since the code's behaviour depends on
the response text only.  All recursion is structural or fuel-based so
that every definition evaluates inside the kernel.

Known deliberate approximations, none of which is exercised by any
theorem below: Python's `str.strip`/`str.lower` handle a larger
whitespace/unicode set than the ASCII one modelled here; `str()` of
floats, lists and dicts is modelled by a placeholder rendering;
Python `json.loads` additionally accepts `NaN`/`Infinity` literals;
float arithmetic in the difficulty estimator is modelled exactly by
rationals.
-/

/-- Python exception kinds that the embedded code can raise. -/
inductive PyErr where
  | typeError
  | indexError
  | keyError
  | attributeError
  deriving DecidableEq

/-- JSON / plain Python values: the universe that `json.loads` produces and
the question dictionaries live in. -/
inductive JVal where
  | jnull
  | jbool (b : Bool)
  | jint (n : Int)
  | jfloat (x : ℚ)
  | jstr (s : String)
  | jarr (xs : List JVal)
  | jobj (kvs : List (String × JVal))

open JVal

/-- Python truthiness of a value (`bool(v)`). -/
def pyTruthy : JVal → Bool
  | jnull => false
  | jbool b => b
  | jint n => n ≠ 0
  | jfloat x => x ≠ 0
  | jstr s => s ≠ ""
  | jarr xs => !xs.isEmpty
  | jobj kvs => !kvs.isEmpty

/-- Python `str(v)`.  Exact for strings, ints, bools and `None` (the only
cases the claims exercise); floats, lists and dicts get a placeholder
rendering. -/
def pyStr : JVal → String
  | jstr s => s
  | jint n => toString n
  | jbool true => "True"
  | jbool false => "False"
  | jnull => "None"
  | jfloat x => toString x
  | jarr _ => "[...]"
  | jobj _ => "\x7b...\x7d"

/-- Python equality of a value against a string (`v == s`): only equal
strings compare equal. -/
def jvalEqStr : JVal → String → Bool
  | jstr t, s => t = s
  | _, _ => false

/-- Python equality of a value against an int. `True == 1` is not modelled
(no claim exercises bool/int cross-equality). -/
def jvalEqInt : JVal → Int → Bool
  | jint m, n => m = n
  | _, _ => false

/-- Lookup of a key in an object's field list (Python dict access). -/
def jlookup : List (String × JVal) → String → Option JVal
  | [], _ => none
  | (k, v) :: rest, key => if k = key then some v else jlookup rest key

/-- Dict insertion: replace the value if the key exists (Python `dict`
semantics for duplicate keys in JSON source), else append. -/
def jinsert : List (String × JVal) → String → JVal → List (String × JVal)
  | [], key, v => [(key, v)]
  | (k, w) :: rest, key, v =>
      if k = key then (k, v) :: rest else (k, w) :: jinsert rest key v

/-- Python `d.get(key, default)` — raises `AttributeError` on a non-dict. -/
def pyDictGet (v : JVal) (key : String) (dflt : JVal) : Except PyErr JVal :=
  match v with
  | jobj kvs => .ok ((jlookup kvs key).getD dflt)
  | _ => .error .attributeError

/-- Python `d[key]` — `KeyError` if absent, `TypeError` on a non-dict. -/
def pyGetItem (v : JVal) (key : String) : Except PyErr JVal :=
  match v with
  | jobj kvs =>
      match jlookup kvs key with
      | some w => .ok w
      | none => .error .keyError
  | _ => .error .typeError

/-- Python `key in d` for a dict. -/
def jHasKey (v : JVal) (key : String) : Bool :=
  match v with
  | jobj kvs => (jlookup kvs key).isSome
  | _ => false

/-- ASCII lowercase of one character. -/
def lowerChar (c : Char) : Char :=
  if 'A' ≤ c ∧ c ≤ 'Z' then Char.ofNat (c.toNat + 32) else c

/-- Python `str.lower()` (ASCII; every input exercised is ASCII). -/
def pyLower (s : String) : String :=
  String.mk (s.toList.map lowerChar)

/-- Python `s.lower()` on a value — `AttributeError`-style failure when the
value is not a string. -/
def pyLowerStr : JVal → Except PyErr String
  | jstr s => .ok (pyLower s)
  | _ => .error .attributeError

/-- Python `len(v)` for sized values. -/
def pyLen : JVal → Except PyErr Nat
  | jstr s => .ok s.length
  | jarr xs => .ok xs.length
  | jobj kvs => .ok kvs.length
  | _ => .error .typeError

/-- Python list indexing `xs[i]` with negative-index wrap-around. -/
def pyIndex (xs : List JVal) (i : Int) : Except PyErr JVal :=
  let n : Int := xs.length
  let j := if i < 0 then i + n else i
  if h : 0 ≤ j ∧ j < n then
    .ok (xs.get ⟨j.toNat, by omega⟩)
  else
    .error .indexError

/-- Python list assignment `xs[i] = v` with negative-index wrap-around. -/
def pyListSet (xs : List JVal) (i : Int) (v : JVal) : Except PyErr (List JVal) :=
  let n : Int := xs.length
  let j := if i < 0 then i + n else i
  if 0 ≤ j ∧ j < n then
    .ok (xs.set j.toNat v)
  else
    .error .indexError

/-- Expect an int value (used where Python would compare/sort/index with it
and raise `TypeError` otherwise). -/
def expectInt : JVal → Except PyErr Int
  | jint n => .ok n
  | _ => .error .typeError

/-- Expect a JSON list value. -/
def expectArr : JVal → Except PyErr (List JVal)
  | jarr xs => .ok xs
  | _ => .error .typeError

-- ----------------------------------------------------------------
-- Character/string helpers mirroring the Python string operations
-- ----------------------------------------------------------------

/-- Strip ASCII whitespace from both ends (Python `str.strip()`). -/
def stripChars (cs : List Char) : List Char :=
  ((cs.dropWhile Char.isWhitespace).reverse.dropWhile Char.isWhitespace).reverse

/-- Python `str.strip()` on strings. -/
def pyStrip (s : String) : String :=
  String.mk (stripChars s.toList)

/-- Does `hay` start with `pat`? -/
def listStartsWith : List Char → List Char → Bool
  | _, [] => true
  | [], _ :: _ => false
  | a :: as, b :: bs => a = b && listStartsWith as bs

/-- Python `str.startswith`. -/
def pyStartsWith (s pat : String) : Bool :=
  listStartsWith s.toList pat.toList

/-- Python `str.endswith`. -/
def pyEndsWith (s pat : String) : Bool :=
  listStartsWith s.toList.reverse pat.toList.reverse

/-- Drop the first `n` characters (`s[n:]`). -/
def pyDropLeft (s : String) (n : Nat) : String :=
  String.mk (s.toList.drop n)

/-- Drop the last `n` characters (`s[:-n]`). -/
def pyDropRight (s : String) (n : Nat) : String :=
  String.mk (s.toList.take (s.toList.length - n))

/-- Python `str.rstrip("\x60\x60\x60")`: remove all trailing backquote
characters. -/
def rstripBackticks (s : String) : String :=
  String.mk ((s.toList.reverse.dropWhile (fun c => c = '\x60')).reverse)

/-- Non-overlapping occurrence count, scanning left to right
(Python `str.count`); `fuel` bounds the scan. -/
def countOccAux : Nat → List Char → List Char → Nat
  | 0, _, _ => 0
  | _, _, [] => 0
  | f + 1, pat, c :: rest =>
      if listStartsWith (c :: rest) pat then
        1 + countOccAux f pat ((c :: rest).drop pat.length)
      else
        countOccAux f pat rest

/-- Python `hay.count(pat)` for a non-empty `pat`. -/
def countOcc (hay pat : String) : Nat :=
  countOccAux hay.toList.length pat.toList hay.toList

/-- Substring containment (`pat in hay`), scanning left to right. -/
def containsSubAux : Nat → List Char → List Char → Bool
  | 0, _, _ => false
  | _, pat, [] => listStartsWith [] pat
  | f + 1, pat, c :: rest =>
      listStartsWith (c :: rest) pat || containsSubAux f pat rest

/-- Python `pat in hay` for strings. -/
def containsSub (hay pat : String) : Bool :=
  containsSubAux (hay.toList.length + 1) pat.toList hay.toList

/-- First index at which `pat` occurs in `hay`. -/
def indexOfSubAux : Nat → Nat → List Char → List Char → Option Nat
  | 0, _, _, _ => none
  | _, i, pat, [] => if listStartsWith [] pat then some i else none
  | f + 1, i, pat, c :: rest =>
      if listStartsWith (c :: rest) pat then some i
      else indexOfSubAux f (i + 1) pat rest

/-- First index of `pat` in `hay`, if any. -/
def indexOfSub (hay pat : List Char) : Option Nat :=
  indexOfSubAux (hay.length + 1) 0 pat hay

/-- Replace every non-overlapping occurrence of `pat` by `rep`, left to
right (Python `str.replace` on a non-empty pattern). -/
def replaceSubAux : Nat → List Char → List Char → List Char → List Char
  | 0, _, _, hay => hay
  | _, _, _, [] => []
  | f + 1, pat, rep, c :: rest =>
      if listStartsWith (c :: rest) pat then
        rep ++ replaceSubAux f pat rep ((c :: rest).drop pat.length)
      else
        c :: replaceSubAux f pat rep rest

/-- Python `hay.replace(pat, rep)` for non-empty `pat`. -/
def pyReplace (hay pat rep : String) : String :=
  String.mk (replaceSubAux hay.toList.length pat.toList rep.toList hay.toList)

/-- Index of the last occurrence of a character, if any. -/
def lastIdxOfAux (c : Char) : Nat → List Char → Option Nat → Option Nat
  | _, [], best => best
  | i, d :: rest, best =>
      lastIdxOfAux c (i + 1) rest (if d = c then some i else best)

/-- Index of the last occurrence of `c` in `cs`. -/
def lastIdxOf (c : Char) (cs : List Char) : Option Nat :=
  lastIdxOfAux c 0 cs none

-- ----------------------------------------------------------------
-- JSON parsing (a strict model of Python json.loads)
-- ----------------------------------------------------------------

/-- JSON whitespace characters (exactly the set Python's json skips). -/
def isJsonWs (c : Char) : Bool :=
  c = ' ' || c = '\t' || c = '\n' || c = '\r'

/-- Skip JSON whitespace. -/
def skipWs (cs : List Char) : List Char :=
  cs.dropWhile isJsonWs

/-- Decode one hex digit. -/
def hexVal (c : Char) : Option Nat :=
  if '0' ≤ c ∧ c ≤ '9' then some (c.toNat - 48)
  else if 'a' ≤ c ∧ c ≤ 'f' then some (c.toNat - 87)
  else if 'A' ≤ c ∧ c ≤ 'F' then some (c.toNat - 55)
  else none

/-- Parse the body of a JSON string (after the opening quote). -/
def parseStringBody : Nat → List Char → List Char → Option (String × List Char)
  | 0, _, _ => none
  | _ + 1, _, [] => none
  | f + 1, acc, c :: rest =>
      if c = '"' then some (String.mk acc.reverse, rest)
      else if c = '\\' then
        match rest with
        | [] => none
        | e :: rest2 =>
            if e = '"' then parseStringBody f ('"' :: acc) rest2
            else if e = '\\' then parseStringBody f ('\\' :: acc) rest2
            else if e = '/' then parseStringBody f ('/' :: acc) rest2
            else if e = 'b' then parseStringBody f ('\x08' :: acc) rest2
            else if e = 'f' then parseStringBody f ('\x0c' :: acc) rest2
            else if e = 'n' then parseStringBody f ('\n' :: acc) rest2
            else if e = 'r' then parseStringBody f ('\r' :: acc) rest2
            else if e = 't' then parseStringBody f ('\t' :: acc) rest2
            else if e = 'u' then
              match rest2 with
              | h1 :: h2 :: h3 :: h4 :: rest3 =>
                  match hexVal h1, hexVal h2, hexVal h3, hexVal h4 with
                  | some a, some b, some cc, some d =>
                      let n := ((a * 16 + b) * 16 + cc) * 16 + d
                      if h : n.isValidChar then
                        parseStringBody f (Char.ofNatAux n h :: acc) rest3
                      else none
                  | _, _, _, _ => none
              | _ => none
            else none
      else if c.toNat < 32 then none
      else parseStringBody f (c :: acc) rest

/-- Digits-to-Nat. -/
def digitsToNat (ds : List Char) : Nat :=
  ds.foldl (fun a c => a * 10 + (c.toNat - 48)) 0

/-- Parse a strict JSON number: `-? (0 | [1-9][0-9]*) (. digits)?
((e|E) (+|-)? digits)?`.  An integer literal becomes `jint`, anything with
a fraction or exponent becomes `jfloat` (exact rational value). -/
def parseNumber (cs : List Char) : Option (JVal × List Char) :=
  let (neg, cs1) :=
    match cs with
    | '-' :: rest => (true, rest)
    | _ => (false, cs)
  match cs1 with
  | [] => none
  | d :: _ =>
      if !d.isDigit then none
      else
        let (ip, cs2) := cs1.span Char.isDigit
        -- strict JSON: no leading zeros
        if ip.length > 1 ∧ ip.headD '0' = '0' then none
        else
          let ipn : Nat := digitsToNat ip
          let (fracDigits, cs3) :=
            match cs2 with
            | '.' :: r =>
                let (fs, r2) := r.span Char.isDigit
                (some fs, r2)
            | _ => (none, cs2)
          match fracDigits with
          | some [] => none
          | _ =>
            let (expPart, cs4) :=
              match cs3 with
              | e :: r =>
                  if e = 'e' ∨ e = 'E' then
                    match r with
                    | s :: r2 =>
                        if s = '+' then
                          let (es, r3) := r2.span Char.isDigit
                          (some (false, es), r3)
                        else if s = '-' then
                          let (es, r3) := r2.span Char.isDigit
                          (some (true, es), r3)
                        else
                          let (es, r3) := r.span Char.isDigit
                          (some (false, es), r3)
                    | [] => (some (false, []), r)
                  else (none, cs3)
              | [] => (none, cs3)
            match expPart with
            | some (_, []) => none
            | _ =>
              let sign : Int := if neg then -1 else 1
              match fracDigits, expPart with
              | none, none => some (jint (sign * ipn), cs2)
              | _, _ =>
                  let fds := fracDigits.getD []
                  -- exact rational value sign * (ip.frac) * 10^exp, written
                  -- with mkRat so that the kernel can evaluate it
                  let mantNum : Int := sign * (ipn * 10 ^ fds.length + digitsToNat fds)
                  let eval : ℚ :=
                    match expPart with
                    | some (eneg, eds) =>
                        if eneg then
                          mkRat mantNum (10 ^ fds.length * 10 ^ digitsToNat eds)
                        else
                          mkRat (mantNum * 10 ^ digitsToNat eds) (10 ^ fds.length)
                    | none => mkRat mantNum (10 ^ fds.length)
                  some (jfloat eval, cs4)

/-- Parser mode: a top-level value, the members of an object, or the items
of an array (single fuel-indexed function so the kernel can evaluate it). -/
inductive PMode where
  | val
  | members (acc : List (String × JVal))
  | items (acc : List JVal)

/-- Fuel-indexed JSON parser core. -/
def parseP : Nat → PMode → List Char → Option (JVal × List Char)
  | 0, _, _ => none
  | f + 1, .val, cs =>
      match skipWs cs with
      | [] => none
      | c :: rest =>
          if c = '\x7b' then
            match skipWs rest with
            | '\x7d' :: rest2 => some (jobj [], rest2)
            | cs2 => parseP f (.members []) cs2
          else if c = '[' then
            match skipWs rest with
            | ']' :: rest2 => some (jarr [], rest2)
            | cs2 => parseP f (.items []) cs2
          else if c = '"' then
            match parseStringBody (rest.length + 1) [] rest with
            | some (s, rest2) => some (jstr s, rest2)
            | none => none
          else if c = 't' then
            if listStartsWith (c :: rest) ['t', 'r', 'u', 'e'] then
              some (jbool true, (c :: rest).drop 4)
            else none
          else if c = 'f' then
            if listStartsWith (c :: rest) ['f', 'a', 'l', 's', 'e'] then
              some (jbool false, (c :: rest).drop 5)
            else none
          else if c = 'n' then
            if listStartsWith (c :: rest) ['n', 'u', 'l', 'l'] then
              some (jnull, (c :: rest).drop 4)
            else none
          else
            parseNumber (c :: rest)
  | f + 1, .members acc, cs =>
      match skipWs cs with
      | '"' :: rest =>
          match parseStringBody (rest.length + 1) [] rest with
          | some (k, rest2) =>
              match skipWs rest2 with
              | ':' :: rest3 =>
                  match parseP f .val rest3 with
                  | some (v, rest4) =>
                      let acc2 := jinsert acc k v
                      match skipWs rest4 with
                      | ',' :: rest5 => parseP f (.members acc2) rest5
                      | '\x7d' :: rest5 => some (jobj acc2, rest5)
                      | _ => none
                  | none => none
              | _ => none
          | none => none
      | _ => none
  | f + 1, .items acc, cs =>
      match parseP f .val cs with
      | some (v, rest) =>
          match skipWs rest with
          | ',' :: rest2 => parseP f (.items (acc ++ [v])) rest2
          | ']' :: rest2 => some (jarr (acc ++ [v]), rest2)
          | _ => none
      | none => none

/-- Python `json.loads`: parse one JSON document, requiring the whole input
(modulo surrounding whitespace) to be consumed; `none` models a raised
`JSONDecodeError`. -/
def json_loads (s : String) : Option JVal :=
  let cs := s.toList
  match parseP (2 * cs.length + 8) .val cs with
  | some (v, rest) => if skipWs rest = [] then some v else none
  | none => none

-- ----------------------------------------------------------------
-- The regex fallback shared by the extractors
-- ----------------------------------------------------------------

/-- One step of the search for `re.search(r'(\x7b[\s\S]*\x7d|\[[\s\S]*\])', t)`:
at the current position, the first alternative matches when the character is
an opening brace with some closing brace strictly later (greedily up to the
last one); otherwise the bracket alternative is tried. -/
def blockAt (cs : List Char) : Option (List Char) :=
  match cs with
  | [] => none
  | c :: rest =>
      if c = '\x7b' then
        (lastIdxOf '\x7d' rest).map (fun j => c :: rest.take (j + 1))
      else if c = '[' then
        (lastIdxOf ']' rest).map (fun j => c :: rest.take (j + 1))
      else none

/-- Leftmost match of the brace/bracket block regex used by all three
`extract_json` variants. -/
def findBlock : List Char → Option (List Char)
  | [] => none
  | c :: rest =>
      match blockAt (c :: rest) with
      | some m => some m
      | none => findBlock rest

/-- String-level wrapper for `findBlock`. -/
def findBlockStr (s : String) : Option String :=
  (findBlock s.toList).map String.mk

/-- Removal of `<tag>...</tag>` blocks, non-greedy and left-to-right
(`re.sub(r'<tag>.*?</tag>', '', text, flags=re.DOTALL)`). -/
def removeTagsAux (openT closeT : List Char) : Nat → List Char → List Char
  | 0, cs => cs
  | f + 1, cs =>
      match indexOfSub cs openT with
      | none => cs
      | some i =>
          let afterOpen := cs.drop (i + openT.length)
          match indexOfSub afterOpen closeT with
          | none => cs
          | some j =>
              cs.take i ++ removeTagsAux openT closeT f (afterOpen.drop (j + closeT.length))

/-- Remove all non-overlapping `<tag>...</tag>` spans from `s`. -/
def removeTags (openT closeT s : String) : String :=
  String.mk (removeTagsAux openT.toList closeT.toList (s.length + 1) s.toList)

-- ----------------------------------------------------------------
-- ai_pipeline.extract_json
-- ----------------------------------------------------------------

namespace AiPipeline

/-- Text pipeline of `ai_pipeline.extract_json` for string input:
strip, drop a code fence, direct parse, regex fallback, single-quote
repair (this variant does NOT replace `None` with `null`). -/
def extractFromText (raw : String) : Option JVal :=
  let t := pyStrip raw
  let t :=
    if pyStartsWith t ("\x60\x60\x60json") then pyStrip (rstripBackticks (pyDropLeft t 7))
    else if pyStartsWith t ("\x60\x60\x60") then pyStrip (rstripBackticks (pyDropLeft t 3))
    else t
  match json_loads t with
  | some v => some v
  | none =>
      match findBlockStr t with
      | none => none
      | some cand =>
          match json_loads cand with
          | some v => some v
          | none => json_loads (pyReplace cand ("'") ("\""))

/-- `ai_pipeline.extract_json`: a non-string input is returned unchanged;
string input goes through the extraction pipeline (`none` models Python's
`None` result). -/
def extract_json (v : JVal) : Option JVal :=
  match v with
  | jstr s => extractFromText s
  | other => some other

end AiPipeline

-- ----------------------------------------------------------------
-- question_generator.extract_json
-- ----------------------------------------------------------------

namespace QuestionGenerator

/-- `question_generator.extract_json` on a string: empty input is rejected,
a `(response: ...)` envelope is unwrapped, code fences are stripped, then
direct parse, regex fallback and the repair that replaces single quotes
AND the `None` literal.  The `.error` case models the `AttributeError`
Python would raise when the envelope's `response` field is not a string. -/
def extract_json (raw : String) : Except PyErr (Option JVal) :=
  if pyStrip raw = "" then .ok none
  else
    let t := pyStrip raw
    match
      (match json_loads t with
       | some (jobj kvs) =>
           match jlookup kvs ("response") with
           | some (jstr s) => Except.ok s
           | some _ => Except.error PyErr.attributeError
           | none => Except.ok t
       | _ => Except.ok t) with
    | .error e => .error e
    | .ok t =>
        if pyStrip t = "" then .ok none
        else
          let t := pyStrip t
          let t := if pyStartsWith t ("\x60\x60\x60json") then pyDropLeft t 7 else t
          let t := if pyEndsWith t ("\x60\x60\x60") then pyDropRight t 3 else t
          let t := pyStrip t
          match json_loads t with
          | some v => .ok (some v)
          | none =>
              match findBlockStr t with
              | none => .ok none
              | some cand =>
                  match json_loads cand with
                  | some v => .ok (some v)
                  | none =>
                      .ok (json_loads (pyReplace (pyReplace cand ("'") ("\"")) ("None") ("null")))

end QuestionGenerator

-- ----------------------------------------------------------------
-- question_evaluator.extract_json
-- ----------------------------------------------------------------

namespace QuestionEvaluator

/-- `question_evaluator.extract_json` on a string: empty input rejected,
`<think>`/`<thinking>` blocks removed, code fences stripped, direct parse,
regex fallback, then the quotes-and-`None` repair. -/
def extract_json (raw : String) : Option JVal :=
  if pyStrip raw = "" then none
  else
    let t := pyStrip raw
    let t := removeTags ("<think>") ("</think>") t
    let t := removeTags ("<thinking>") ("</thinking>") t
    let t := if pyStartsWith t ("\x60\x60\x60json") then pyDropLeft t 7 else t
    let t := if pyEndsWith t ("\x60\x60\x60") then pyDropRight t 3 else t
    let t := pyStrip t
    match json_loads t with
    | some v => some v
    | none =>
        match findBlockStr t with
        | none => none
        | some cand =>
            match json_loads cand with
            | some v => some v
            | none =>
                json_loads (pyReplace (pyReplace cand ("'") ("\"")) ("None") ("null"))

end QuestionEvaluator

-- ----------------------------------------------------------------
-- Question dictionaries
-- ----------------------------------------------------------------

/-- A question dictionary, with one field per key the pipeline consults
(`q.get(...)`/`q[...] = ...`); `none` models an absent key.  Keys other
than these seven are never read or written by the source and are carried
through unchanged, so they are omitted from the embedding. -/
structure PyDictQ where
  question : Option JVal
  qtype : Option JVal
  options : Option JVal
  answer : Option JVal
  topic : Option JVal
  subtopic : Option JVal
  difficulty : Option JVal

/-- View a JSON value as a question dictionary (the `isinstance(q, dict)`
checks in the source). -/
def toQ : JVal → Option PyDictQ
  | jobj kvs =>
      some ⟨jlookup kvs ("question"), jlookup kvs ("type"), jlookup kvs ("options"),
            jlookup kvs ("answer"), jlookup kvs ("topic"), jlookup kvs ("subtopic"),
            jlookup kvs ("difficulty")⟩
  | _ => none

/-- Render a question record back to a JSON object (used when a refined
question is stored back into the questions list); absent keys are skipped. -/
def QtoJ (q : PyDictQ) : JVal :=
  jobj (([] : List (String × JVal))
    ++ (match q.question with | some v => [(("question"), v)] | none => [])
    ++ (match q.qtype with | some v => [(("type"), v)] | none => [])
    ++ (match q.options with | some v => [(("options"), v)] | none => [])
    ++ (match q.answer with | some v => [(("answer"), v)] | none => [])
    ++ (match q.topic with | some v => [(("topic"), v)] | none => [])
    ++ (match q.subtopic with | some v => [(("subtopic"), v)] | none => [])
    ++ (match q.difficulty with | some v => [(("difficulty"), v)] | none => []))

/-- Python iteration `[str(o) for o in opts]`: lists yield their elements,
strings their characters, dicts their keys; other values raise `TypeError`. -/
def pyIterStrs : JVal → Except PyErr (List String)
  | jarr xs => .ok (xs.map pyStr)
  | jstr s => .ok (s.toList.map (fun c => String.mk [c]))
  | jobj kvs => .ok (kvs.map (fun kv => kv.1))
  | _ => .error .typeError

namespace AiPipeline

-- -------------------------------------------------
-- analyze_question_difficulty
-- -------------------------------------------------

/-- The arithmetic cues of `analyze_question_difficulty`. -/
def arithOps : List String :=
  ["+", "-", "*", "/", "average", "total", "difference", "sum", "product",
   "divide", "multiply"]

/-- All matches of `re.findall(r'\d+\.?\d*', text)`: maximal digit runs with
an optional dot and further digits, scanning left to right. -/
def scanNums : Nat → List Char → List (List Char)
  | 0, _ => []
  | _ + 1, [] => []
  | f + 1, c :: rest =>
      if c.isDigit then
        let sp := (c :: rest).span Char.isDigit
        match sp.2 with
        | '.' :: r2 =>
            let sp2 := r2.span Char.isDigit
            (sp.1 ++ '.' :: sp2.1) :: scanNums f sp2.2
        | r1 => sp.1 :: scanNums f r1
      else scanNums f rest

/-- Exact value of one matched numeral (`float(n)`, modelled exactly as a
rational). -/
def numeralToRat (cs : List Char) : ℚ :=
  let sp := cs.span Char.isDigit
  match sp.2 with
  | '.' :: fs => mkRat (digitsToNat sp.1 * 10 ^ fs.length + digitsToNat fs) (10 ^ fs.length)
  | _ => (digitsToNat sp.1 : ℚ)

/-- Python `max(nums) if nums else 0`. -/
def maxRat : List ℚ → ℚ
  | [] => 0
  | x :: xs => xs.foldl max x

/-- Core of the difficulty estimator, a function of the lowered
question-plus-answer text. -/
def analyzeText (text : String) : String :=
  let cs := text.toList
  let nums := (scanNums cs.length cs).map numeralToRat
  let steps :=
    1 + (if arithOps.any (fun op => containsSub text op) then
           countOcc text (" and ") + countOcc text (",")
         else 0)
  let maxNum := maxRat nums
  if maxNum < 20 ∧ steps ≤ 1 then "Easy"
  else if maxNum < 100 ∧ steps ≤ 2 then "Medium"
  else if maxNum < 1000 ∧ steps > 2 then "Hard"
  else "Medium"

/-- `ai_pipeline.analyze_question_difficulty`: builds the lowered text
`question.get("question", "") + " " + str(question.get("answer", ""))` and
classifies it; a non-string `question` value makes the Python concatenation
raise `TypeError`. -/
def analyze_question_difficulty (q : PyDictQ) : Except PyErr String :=
  match q.question.getD (jstr ("")) with
  | jstr qs =>
      .ok (analyzeText (pyLower (qs ++ " " ++ pyStr (q.answer.getD (jstr (""))))))
  | _ => .error .typeError

-- -------------------------------------------------
-- normalize_question
-- -------------------------------------------------

/-- The type-synonym table of `normalize_question` (input already
lowercased); anything unrecognized becomes "Short Answer". -/
def canonType (t : String) : String :=
  if t = "multiple_choice" ∨ t = "multiple-choice" ∨ t = "mcq" then "MCQ"
  else if t = "true/false" ∨ t = "true_false" ∨ t = "tf" then "True/False"
  else if t = "short" ∨ t = "short answer" ∨ t = "sa" then "Short Answer"
  else if t = "fill" ∨ t = "fill-in-the-blank" ∨ t = "fib" then "Fill-in-the-Blank"
  else if t = "num" ∨ t = "numerical" ∨ t = "numeric" then "Numerical"
  else "Short Answer"

/-- The guard `if allowed_types and q["type"] not in allowed_types`. -/
def allowedReject (allowed : Option (List JVal)) (ct : String) : Bool :=
  match allowed with
  | none => false
  | some l => !l.isEmpty && !(l.any (fun x => jvalEqStr x ct))

/-- The `while len(opts) < 4: opts.append("Option " + str(len(opts)+1))`
loop, with explicit fuel (4 is always enough: each pass appends one
element). -/
def padOptions : Nat → List String → List String
  | 0, l => l
  | f + 1, l =>
      if l.length < 4 then
        padOptions f (l ++ [("Option ") ++ toString (l.length + 1)])
      else l

/-- The MCQ option repair of `normalize_question`: splice the answer in if
missing, pad to four, truncate to four. -/
def mcqFixOptions (opts : List String) (ans : String) : List String :=
  let o1 :=
    if ans ∈ opts then opts
    else if opts.length ≥ 3 then opts.take 3 ++ [ans]
    else opts ++ [ans]
  (padOptions 4 o1).take 4

/-- The True/False answer coercion:
`"Correct" if str(ans).strip().lower() in ["true","t","correct"] else "Wrong"`. -/
def coerceTF (s : String) : String :=
  let a := pyLower (pyStrip s)
  if a = "true" ∨ a = "t" ∨ a = "correct" then "Correct" else "Wrong"

/-- The per-type branch of `normalize_question` (the canonical type has
already been stored in `qtype`). -/
def typeBranch (ct : String) (q : PyDictQ) : Except PyErr PyDictQ :=
  if ct = "MCQ" then
    match pyIterStrs (q.options.getD (jarr [])) with
    | .error e => .error e
    | .ok opts =>
        let ans := pyStr (q.answer.getD jnull)
        .ok { q with options := some (jarr ((mcqFixOptions opts ans).map jstr)) }
  else if ct = "True/False" then
    .ok { q with
          options := some (jarr [jstr ("Correct"), jstr ("Wrong")]),
          answer := some (jstr (coerceTF (pyStr (q.answer.getD jnull)))) }
  else
    .ok { q with answer := some (jstr (pyStr (q.answer.getD jnull))) }

/-- The difficulty assignment of `normalize_question`: a truthy caller
difficulty always wins (the estimator is still evaluated, only for the
mismatch log); otherwise the estimate is stored. -/
def difficultyStep (gui : Option String) (q : PyDictQ) : Except PyErr PyDictQ :=
  if (gui.getD ("")) ≠ "" then
    match analyze_question_difficulty q with
    | .error e => .error e
    | .ok _ => .ok { q with difficulty := some (jstr (gui.getD (""))) }
  else
    match analyze_question_difficulty q with
    | .error e => .error e
    | .ok est => .ok { q with difficulty := some (jstr est) }

/-- `ai_pipeline.normalize_question` on a question record: canonicalize the
type, reject disallowed types, repair options/answers per type, enforce the
caller difficulty, and default topic/subtopic. -/
def normalize_question (q : PyDictQ) (allowed : Option (List JVal))
    (gui : Option String) : Except PyErr (Option PyDictQ) :=
  match pyLowerStr (q.qtype.getD (jstr (""))) with
  | .error e => .error e
  | .ok tl =>
      if allowedReject allowed (canonType tl) then .ok none
      else
        match typeBranch (canonType tl) { q with qtype := some (jstr (canonType tl)) } with
        | .error e => .error e
        | .ok q2 =>
            match difficultyStep gui q2 with
            | .error e => .error e
            | .ok q3 =>
                .ok (some { q3 with
                            topic := some (q3.topic.getD (jstr (""))),
                            subtopic := some (q3.subtopic.getD (jstr (""))) })

/-- `normalize_question` applied to a raw JSON value: a non-dict is
rejected (`if not isinstance(q, dict): return None`). -/
def normalize_J (v : JVal) (allowed : Option (List JVal)) (gui : Option String) :
    Except PyErr (Option PyDictQ) :=
  match toQ v with
  | none => .ok none
  | some q => normalize_question q allowed gui

-- -------------------------------------------------
-- is_valid_question
-- -------------------------------------------------

/-- `ai_pipeline.is_valid_question` on a question record: non-empty text,
then a per-type check on options/answer.  The `(q.get("type") or "")`
dance means a truthy non-string type raises when lowered. -/
def is_valid_question (q : PyDictQ) : Except PyErr Bool :=
  if !pyTruthy (q.question.getD jnull) then .ok false
  else
    let tv := q.qtype.getD jnull
    match (if pyTruthy tv then pyLowerStr tv else .ok ("")) with
    | .error e => .error e
    | .ok t =>
        if t = "mcq" ∨ t = "multiple_choice" ∨ t = "multiple-choice" then
          .ok (match q.options with
               | some (jarr l) =>
                   decide (l.length ≥ 2) && q.answer.isSome &&
                     !jvalEqStr (q.answer.getD jnull) ""
               | _ => false)
        else if t = "true/false" ∨ t = "true_false" ∨ t = "tf" then
          .ok (q.answer.isSome &&
               (jvalEqStr (q.answer.getD jnull) ("Correct") ||
                jvalEqStr (q.answer.getD jnull) ("Wrong")))
        else
          .ok (q.answer.isSome && !jvalEqStr (q.answer.getD jnull) "")

/-- `is_valid_question` on a raw JSON value (non-dicts are invalid). -/
def is_valid_J (v : JVal) : Except PyErr Bool :=
  match toQ v with
  | none => .ok false
  | some q => is_valid_question q

end AiPipeline

namespace AiPipeline

-- -------------------------------------------------
-- Critic (ai_pipeline)
-- -------------------------------------------------

/-- `ai_pipeline.batch_critique`: one model call (its raw text is the
oracle argument); a parsed dict containing "flagged" is returned as-is,
anything else falls back to `(summary: "Critique failed", flagged: [])`.
The questions argument only feeds the prompt, so it does not influence
the result. -/
def batch_critique (raw : String) (_questions : List JVal) : JVal :=
  match extract_json (jstr raw) with
  | some (jobj kvs) =>
      if (jlookup kvs ("flagged")).isSome then jobj kvs
      else jobj [(("summary"), jstr ("Critique failed")), (("flagged"), jarr [])]
  | _ => jobj [(("summary"), jstr ("Critique failed")), (("flagged"), jarr [])]

/-- The per-question fallback record of `ai_pipeline.critique_questions`. -/
def critiqueFailedRecord : JVal :=
  jobj [(("approved"), jbool false),
        (("issues"), jarr [jstr ("Critique failed")]),
        (("suggestions"), jarr [])]

/-- `ai_pipeline.critique_questions`: one model call; a parsed list whose
length matches the question count is returned as-is, anything else falls
back to one unapproved "Critique failed" record per question. -/
def critique_questions (raw : String) (questions : List JVal) : List JVal :=
  match extract_json (jstr raw) with
  | some (jarr xs) =>
      if xs.length = questions.length then xs
      else questions.map (fun _ => critiqueFailedRecord)
  | _ => questions.map (fun _ => critiqueFailedRecord)

-- -------------------------------------------------
-- Refiner (ai_pipeline)
-- -------------------------------------------------

/-- One attempt sequence of `ai_pipeline.refine_question` (`raws` holds the
model's raw reply per attempt): extract, validate, normalize against the
requested type and difficulty, then force topic/subtopic/difficulty. -/
def refineGo (difficulty : String) (qtype : JVal) (topic subtopic : JVal) :
    List String → Except PyErr (Option PyDictQ)
  | [] => .ok none
  | raw :: rest =>
      match extract_json (jstr raw) with
      | some (jobj kvs) =>
          match toQ (jobj kvs) with
          | none => refineGo difficulty qtype topic subtopic rest
          | some qd =>
              match is_valid_question qd with
              | .error e => .error e
              | .ok false => refineGo difficulty qtype topic subtopic rest
              | .ok true =>
                  match normalize_question qd (some [qtype]) (some difficulty) with
                  | .error e => .error e
                  | .ok none => refineGo difficulty qtype topic subtopic rest
                  | .ok (some refined) =>
                      .ok (some { refined with
                        topic := some (if pyTruthy topic then topic
                                       else refined.topic.getD (jstr (""))),
                        subtopic := some (if pyTruthy subtopic then subtopic
                                          else refined.subtopic.getD (jstr (""))),
                        difficulty := some (jstr difficulty) })
      | _ => refineGo difficulty qtype topic subtopic rest

/-- `ai_pipeline.refine_question`: the prompt embeds
`feedback.get("issues")`/`feedback.get("suggestions")` (raising
`AttributeError` on a non-dict feedback), then the bounded attempt loop
runs. -/
def refine_question (raws : List String) (_question feedback : JVal)
    (topic subtopic : JVal) (difficulty : String) (qtype : JVal) :
    Except PyErr (Option PyDictQ) :=
  match pyDictGet feedback ("issues") jnull with
  | .error e => .error e
  | .ok _ =>
      match pyDictGet feedback ("suggestions") jnull with
      | .error e => .error e
      | .ok _ => refineGo difficulty qtype topic subtopic raws

-- -------------------------------------------------
-- Generator (ai_pipeline)
-- -------------------------------------------------

/-- `ai_pipeline.generate_full_quiz` result handling: per attempt, extract
the reply; accept a dict that has a "questions" entry of positive length
(`len(...)` raising `TypeError` on unsized values).  Prompt construction
is behaviour-free and omitted. -/
def generate_full_quiz : List String → Except PyErr (Option JVal)
  | [] => .ok none
  | raw :: rest =>
      match extract_json (jstr raw) with
      | some (jobj kvs) =>
          match jlookup kvs ("questions") with
          | some qv =>
              match pyLen qv with
              | .error e => .error e
              | .ok n => if n > 0 then .ok (some (jobj kvs)) else generate_full_quiz rest
          | none => generate_full_quiz rest
      | _ => generate_full_quiz rest

-- -------------------------------------------------
-- Main pipeline (ai_pipeline.generate_questions_simple)
-- -------------------------------------------------

/-- Network oracle for one pipeline run: the raw model replies, plus the
value produced by `random.sample` (whose distribution is irrelevant to the
claims; theorems quantify over it). -/
structure PipeOracle where
  genRaws : List String
  batchRaw : String
  critRaw : Int → String
  refineRaw : Int → Nat → String
  postCritRaw : Int → Nat → String
  sample : List Int

/-- Python `i not in flagged` for an int `i` (TypeError on non-container
or string containers). -/
def pyIntNotIn (i : Int) (container : JVal) : Except PyErr Bool :=
  match container with
  | jarr xs => .ok (!(xs.any (fun x => jvalEqInt x i)))
  | jobj kvs => .ok (!(kvs.any (fun _ => false)))
  | _ => .error .typeError

/-- `[i for i in range(n) if i not in flagged]`. -/
def candidatesGo (flagged : JVal) : List Nat → Except PyErr (List Int)
  | [] => .ok []
  | i :: rest =>
      match pyIntNotIn i flagged with
      | .error e => .error e
      | .ok b =>
          match candidatesGo flagged rest with
          | .error e => .error e
          | .ok l => .ok (if b then (i : Int) :: l else l)

/-- The candidate indices for the random spot-check sample. -/
def candidatesCalc (flagged : JVal) (n : Nat) : Except PyErr (List Int) :=
  candidatesGo flagged (List.range n)

/-- Coerce every element to an int, raising `TypeError` otherwise (the
comparisons performed by `sorted`). -/
def mapExpectInt : List JVal → Except PyErr (List Int)
  | [] => .ok []
  | x :: rest =>
      match expectInt x with
      | .error e => .error e
      | .ok i =>
          match mapExpectInt rest with
          | .error e => .error e
          | .ok l => .ok (i :: l)

/-- Deduplicate preserving first occurrences (the `set(...)` step; ordering
is then fixed by `sorted`). -/
def dedupIntsAux (seen : List Int) : List Int → List Int
  | [] => []
  | x :: xs =>
      if x ∈ seen then dedupIntsAux seen xs
      else x :: dedupIntsAux (x :: seen) xs

/-- Deduplicated list, first occurrences first. -/
def dedupInts (l : List Int) : List Int :=
  dedupIntsAux [] l

/-- Insertion sort for the `sorted(...)` step. -/
def insertSorted (x : Int) : List Int → List Int
  | [] => [x]
  | y :: ys => if x ≤ y then x :: y :: ys else y :: insertSorted x ys

/-- `sorted(set(flagged + random_sample))`: requires `flagged` to be a
list; sorting compares elements, raising `TypeError` on non-ints. -/
def targetedCalc (flagged : JVal) (sample : List Int) : Except PyErr (List Int) :=
  match flagged with
  | jarr xs =>
      match mapExpectInt xs with
      | .error e => .error e
      | .ok fl => .ok ((dedupInts (fl ++ sample)).foldr insertSorted [])
  | _ => .error .typeError

/-- `feedback.get("approved", False)` as a truthiness test. -/
def feedbackApproved (feedback : JVal) : Except PyErr Bool :=
  match pyDictGet feedback ("approved") (jbool false) with
  | .error e => .error e
  | .ok v => .ok (pyTruthy v)

/-- The slicing in the final-pass drop log
(`q.get('question', '')[:80]`): `AttributeError` on a non-dict question,
`TypeError` when the question value is not sliceable. -/
def dropLogCheck (qv : JVal) : Except PyErr Unit :=
  match qv with
  | jobj kvs =>
      match (jlookup kvs ("question")).getD (jstr ("")) with
      | jstr _ => .ok ()
      | jarr _ => .ok ()
      | _ => .error .typeError
  | _ => .error .attributeError

/-- The same slicing in `refine_question`'s exhaustion log
(`question.get('question','')[:80]`). -/
def refineFailLogCheck (qv : JVal) : Except PyErr Unit := dropLogCheck qv

/-- The inner `for attempt in range(max_refine_attempts)` loop of the
orchestrator: refine, re-critique, store on approval, else carry the new
feedback.  `left` is the remaining attempt budget. -/
def attemptsLoop (o : PipeOracle) (difficulty : String) (idx : Int) (q_obj : JVal) :
    Nat → Nat → JVal → List JVal → Except PyErr (List JVal)
  | 0, _, _, qs => .ok qs
  | left + 1, attempt, feedback, qs =>
      match refine_question [o.refineRaw idx attempt] q_obj feedback
          ((match pyDictGet q_obj ("topic") (jstr ("")) with
            | .ok v => v | .error _ => jstr ("")))
          ((match pyDictGet q_obj ("subtopic") (jstr ("")) with
            | .ok v => v | .error _ => jstr ("")))
          difficulty
          ((match pyDictGet q_obj ("type") jnull with
            | .ok v => v | .error _ => jnull)) with
      | .error e => .error e
      | .ok none =>
          -- `refined` falsy: log and retry with the same feedback
          attemptsLoop o difficulty idx q_obj left (attempt + 1) feedback qs
      | .ok (some refined) =>
          match is_valid_question refined with
          | .error e => .error e
          | .ok false => attemptsLoop o difficulty idx q_obj left (attempt + 1) feedback qs
          | .ok true =>
              match critique_questions (o.postCritRaw idx attempt) [QtoJ refined] with
              | [] => .error .indexError  -- `[0]` on an empty critique list
              | post :: _ =>
                  match feedbackApproved post with
                  | .error e => .error e
                  | .ok true => pyListSet qs idx (QtoJ refined)
                  | .ok false =>
                      attemptsLoop o difficulty idx q_obj left (attempt + 1) post qs

/-- The targeted-critique-and-refinement loop over the chosen indices.
The unguarded `questions[idx]` read is the first statement of each
iteration. -/
def targetedLoop (o : PipeOracle) (difficulty : String) :
    List Int → List JVal → Except PyErr (List JVal)
  | [], qs => .ok qs
  | idx :: rest, qs =>
      match pyIndex qs idx with
      | .error e => .error e
      | .ok q_obj =>
          match critique_questions (o.critRaw idx) [q_obj] with
          | [] => targetedLoop o difficulty rest qs  -- `if not crits: continue`
          | feedback :: _ =>
              match feedbackApproved feedback with
              | .error e => .error e
              | .ok true => targetedLoop o difficulty rest qs
              | .ok false =>
                  match attemptsLoop o difficulty idx q_obj 3 0 feedback qs with
                  | .error e => .error e
                  | .ok qs2 =>
                      -- `if not is_valid_question(questions[idx]): log(...)`
                      match pyIndex qs2 idx with
                      | .error e => .error e
                      | .ok cur =>
                          match is_valid_J cur with
                          | .error e => .error e
                          | .ok _ => targetedLoop o difficulty rest qs2

/-- The allowed types of the final normalization pass. -/
def allowedAll : List JVal :=
  [jstr ("MCQ"), jstr ("True/False"), jstr ("Short Answer"),
   jstr ("Fill-in-the-Blank"), jstr ("Numerical")]

/-- The final pass: normalize every question against the full allowed-type
list and the caller difficulty, keep the valid ones, and log (with a
crash-prone slice) the dropped ones. -/
def finalPass (difficulty : String) : List JVal → Except PyErr (List PyDictQ)
  | [] => .ok []
  | qv :: rest =>
      match normalize_J qv (some allowedAll) (some difficulty) with
      | .error e => .error e
      | .ok none =>
          match dropLogCheck qv with
          | .error e => .error e
          | .ok () => finalPass difficulty rest
      | .ok (some nq) =>
          match is_valid_question nq with
          | .error e => .error e
          | .ok true =>
              match finalPass difficulty rest with
              | .error e => .error e
              | .ok l => .ok (nq :: l)
          | .ok false =>
              match dropLogCheck qv with
              | .error e => .error e
              | .ok () => finalPass difficulty rest

/-- The body of `generate_questions_simple` after a quiz was obtained,
up to (but not including) the final `[:num_questions]` truncation. -/
def pipelineBody (o : PipeOracle) (difficulty : String) (quiz : JVal) :
    Except PyErr (List PyDictQ) :=
  match pyGetItem quiz ("questions") with
  | .error e => .error e
  | .ok qv =>
      match expectArr qv with
      | .error e => .error e
      | .ok questions =>
          let n := questions.length
          match pyGetItem quiz ("settings") with
          | .error e => .error e
          | .ok settings =>
              match pyDictGet settings ("topics") jnull with
              | .error e => .error e
              | .ok _topicHint =>
                  let bf := batch_critique o.batchRaw questions
                  match pyDictGet bf ("flagged") (jarr []) with
                  | .error e => .error e
                  | .ok flagged =>
                      match candidatesCalc flagged n with
                      | .error e => .error e
                      | .ok _candidates =>
                          match targetedCalc flagged o.sample with
                          | .error e => .error e
                          | .ok targeted =>
                              match targetedLoop o difficulty targeted questions with
                              | .error e => .error e
                              | .ok questions2 => finalPass difficulty questions2

/-- `ai_pipeline.generate_questions_simple`: generation, hybrid critique,
refinement, final normalization, and the `[:num_questions]` truncation.
The result pairs the parsed quiz object with the final question list
(`quiz["questions"] = final_questions[:num_questions]`). -/
def generate_questions_simple (o : PipeOracle) (num_questions : Nat)
    (difficulty : String) : Except PyErr (Option (JVal × List PyDictQ)) :=
  match generate_full_quiz o.genRaws with
  | .error e => .error e
  | .ok none => .ok none
  | .ok (some quiz) =>
      if !pyTruthy quiz || !jHasKey quiz ("questions") then .ok none
      else
        match pipelineBody o difficulty quiz with
        | .error e => .error e
        | .ok final => .ok (some (quiz, final.take num_questions))

end AiPipeline

-- ----------------------------------------------------------------
-- question_evaluator: critiques and evaluate_and_refine_questions
-- ----------------------------------------------------------------

namespace QuestionEvaluator

/-- `question_evaluator.batch_critique` with its retry loop: each entry of
`raws` is one attempt's reply (`none` models `run_ollama` returning
`None`); the fallback approves everything and flags nothing. -/
def batch_critique (raws : List (Option String)) (questions : List JVal) : JVal :=
  match raws with
  | [] =>
      jobj [(("flagged"), jarr []),
            (("feedback"),
             jarr ((List.range questions.length).map (fun i =>
               jobj [(("index"), jint i), (("approved"), jbool true),
                     (("comments"), jstr ("Fallback approval"))])))]
  | none :: rest => batch_critique rest questions
  | some raw :: rest =>
      match extract_json raw with
      | some (jobj kvs) =>
          if (jlookup kvs ("flagged")).isSome then jobj kvs
          else batch_critique rest questions
      | _ => batch_critique rest questions

/-- Retry loop of `question_evaluator.critique_questions`. -/
def critiqueGo : List (Option String) → List JVal → List JVal
  | [], qs =>
      qs.map (fun _ =>
        jobj [(("approved"), jbool true), (("comments"), jstr ("Fallback approval"))])
  | none :: rest, qs => critiqueGo rest qs
  | some raw :: rest, qs =>
      match extract_json raw with
      | some (jarr xs) => if xs.length = qs.length then xs else critiqueGo rest qs
      | _ => critiqueGo rest qs

/-- `question_evaluator.critique_questions` with its retry loop; the
fallback approves every question ("Fallback approval"). -/
def critique_questions (raws : List (Option String)) (questions : List JVal) :
    List JVal :=
  if questions.isEmpty then []
  else critiqueGo raws questions

/-- The guarded comprehension
`[questions[i] for i in flagged if i < len(questions)]`: each flagged
entry is compared against the length (TypeError on non-ints) and, when
below it, indexed (still able to raise IndexError for very negative
values — any such exception is swallowed by the surrounding `try`). -/
def flaggedQuestions (fl : List JVal) (questions : List JVal) :
    Except PyErr (List JVal) :=
  match fl with
  | [] => .ok []
  | x :: rest =>
      match expectInt x with
      | .error e => .error e
      | .ok i =>
          if i < (questions.length : Int) then
            match pyIndex questions i with
            | .error e => .error e
            | .ok q =>
                match flaggedQuestions rest questions with
                | .error e => .error e
                | .ok l => .ok (q :: l)
          else flaggedQuestions rest questions

/-- The logging zip of `evaluate_and_refine_questions`
(`if i < len(questions) and feedback and not feedback.get("approved", True)`),
kept for its exception behaviour. -/
def zipCheck (questions : List JVal) : List JVal → List JVal → Except PyErr Unit
  | [], _ => .ok ()
  | _, [] => .ok ()
  | i :: is, fb :: fbs =>
      match expectInt i with
      | .error e => .error e
      | .ok iv =>
          if iv < (questions.length : Int) ∧ pyTruthy fb then
            match pyDictGet fb ("approved") (jbool true) with
            | .error e => .error e
            | .ok _ => zipCheck questions is fbs
          else zipCheck questions is fbs

/-- The `try` body of `evaluate_and_refine_questions`: batch critique,
then a detailed critique of the flagged subset; its value is discarded
by the source (only logs), so the result type is `Unit`. -/
def evalBody (braws craws : List (Option String)) (questions : List JVal) :
    Except PyErr Unit :=
  let bf := batch_critique braws questions
  match pyDictGet bf ("flagged") (jarr []) with
  | .error e => .error e
  | .ok flagged =>
      if pyTruthy flagged then
        match expectArr flagged with
        | .error e => .error e
        | .ok fl =>
            match flaggedQuestions fl questions with
            | .error e => .error e
            | .ok fq =>
                let df := critique_questions craws fq
                zipCheck questions fl df
      else .ok ()

/-- `question_evaluator.evaluate_and_refine_questions`: empty input is
returned at once; otherwise the whole critique body runs inside
`try ... except`, and `questions` is returned on every path — success
or swallowed exception alike. -/
def evaluate_and_refine_questions (braws craws : List (Option String))
    (questions : List JVal) : List JVal :=
  if questions.isEmpty then questions
  else
    match evalBody braws craws questions with
    | .ok _ => questions
    | .error _ => questions

end QuestionEvaluator

-- ----------------------------------------------------------------
-- Observers used in theorem statements
-- ----------------------------------------------------------------

/-- Number of options of a question, when the options field is a list. -/
def optionCount (q : PyDictQ) : Option Nat :=
  match q.options with
  | some (jarr l) => some l.length
  | _ => none

/-- Whether the stringified answer is a member of the options list. -/
def answerInOptions (q : PyDictQ) : Bool :=
  match q.options with
  | some (jarr l) => l.any (fun v => jvalEqStr v (pyStr (q.answer.getD jnull)))
  | _ => false

/-- The options list rendered as strings (empty for a non-list). -/
def optStrings (q : PyDictQ) : List String :=
  match q.options with
  | some (jarr l) => l.map pyStr
  | _ => []

-- ----------------------------------------------------------------
-- Spec-side definitions (written from the claims' words, for
-- comparison against the source embeddings)
-- ----------------------------------------------------------------

/-- Spec-side type-synonym table, as amended: case-insensitive synonym
sets for the five canonical types, everything unrecognized mapping to
"Short Answer"; `calculation` is NOT recognized (this is the amendment —
the claim listed it as a Numerical synonym, the code does not). -/
def specTypeMap (s : String) : String :=
  let t := pyLower s
  if t = "multiple_choice" ∨ t = "multiple-choice" ∨ t = "mcq" then "MCQ"
  else if t = "true/false" ∨ t = "true_false" ∨ t = "tf" then "True/False"
  else if t = "short" ∨ t = "short answer" ∨ t = "sa" then "Short Answer"
  else if t = "fill" ∨ t = "fill-in-the-blank" ∨ t = "fib" then "Fill-in-the-Blank"
  else if t = "num" ∨ t = "numerical" ∨ t = "numeric" then "Numerical"
  else "Short Answer"

/-- Spec-side text: the concatenated question and answer text, lowered. -/
def specText (question : String) (answer : JVal) : String :=
  pyLower (question ++ " " ++ pyStr answer)

/-- Spec side: does the text contain an arithmetic cue (operator symbol or
keyword)? -/
def specArithCue (text : String) : Bool :=
  AiPipeline.arithOps.any (fun op => containsSub text op)

/-- Spec-side step count: starts at 1, plus one per " and " and one per
comma, but only when an arithmetic cue is present. -/
def specStepCount (text : String) : Nat :=
  1 + (if specArithCue text then countOcc text (" and ") + countOcc text (",") else 0)

/-- Spec-side maximum numeric literal of the text (0 if none). -/
def specMaxLiteral (text : String) : ℚ :=
  AiPipeline.maxRat ((AiPipeline.scanNums text.toList.length text.toList).map
    AiPipeline.numeralToRat)

/-- Spec-side classification: max < 20 and steps ≤ 1 → Easy; otherwise
max < 100 and steps ≤ 2 → Medium; otherwise max < 1000 and steps > 2 →
Hard; otherwise Medium. -/
def specClassify (m : ℚ) (steps : Nat) : String :=
  if m < 20 ∧ steps ≤ 1 then "Easy"
  else if m < 100 ∧ steps ≤ 2 then "Medium"
  else if m < 1000 ∧ steps > 2 then "Hard"
  else "Medium"

-- ----------------------------------------------------------------
-- Lemmas about the normalizer
-- ----------------------------------------------------------------

namespace AiPipeline

/-- `canonType` only produces the five canonical labels. -/
theorem canonType_vals (s : String) :
    canonType s = "MCQ" ∨ canonType s = "True/False" ∨ canonType s = "Short Answer" ∨
    canonType s = "Fill-in-the-Blank" ∨ canonType s = "Numerical" := by
  unfold canonType
  repeat' split
  all_goals simp

/-- Lowering a canonical label and mapping it again is the identity on the
image of `canonType`. -/
theorem canonType_idem (s : String) :
    canonType (pyLower (canonType s)) = canonType s := by
  rcases canonType_vals s with h | h | h | h | h <;> rw [h] <;> decide

/-- `typeBranch` never touches the type field. -/
theorem typeBranch_qtype {ct : String} {q q2 : PyDictQ}
    (h : typeBranch ct q = .ok q2) : q2.qtype = q.qtype := by
  unfold typeBranch at h
  split at h
  · split at h
    · cases h
    · cases h; rfl
  · split at h
    · cases h; rfl
    · cases h; rfl

/-- `typeBranch` never touches the question text. -/
theorem typeBranch_question {ct : String} {q q2 : PyDictQ}
    (h : typeBranch ct q = .ok q2) : q2.question = q.question := by
  unfold typeBranch at h
  split at h
  · split at h
    · cases h
    · cases h; rfl
  · split at h
    · cases h; rfl
    · cases h; rfl

/-- `typeBranch` never touches topic, subtopic or difficulty. -/
theorem typeBranch_rest {ct : String} {q q2 : PyDictQ}
    (h : typeBranch ct q = .ok q2) :
    q2.topic = q.topic ∧ q2.subtopic = q.subtopic ∧ q2.difficulty = q.difficulty := by
  unfold typeBranch at h
  split at h
  · split at h
    · cases h
    · cases h; exact ⟨rfl, rfl, rfl⟩
  · split at h
    · cases h; exact ⟨rfl, rfl, rfl⟩
    · cases h; exact ⟨rfl, rfl, rfl⟩

/-- Inversion for the MCQ branch. -/
theorem typeBranch_mcq_inv {q q2 : PyDictQ}
    (h : typeBranch ("MCQ") q = .ok q2) :
    ∃ opts, pyIterStrs (q.options.getD (jarr [])) = .ok opts ∧
      q2 = { q with options := some (jarr
        ((mcqFixOptions opts (pyStr (q.answer.getD jnull))).map jstr)) } := by
  unfold typeBranch at h
  rw [if_pos rfl] at h
  cases hx : pyIterStrs (q.options.getD (jarr [])) with
  | error e => rw [hx] at h; cases h
  | ok opts => rw [hx] at h; cases h; exact ⟨opts, rfl, rfl⟩

/-- The True/False branch, explicitly. -/
theorem typeBranch_tf (q : PyDictQ) :
    typeBranch ("True/False") q = .ok { q with
      options := some (jarr [jstr ("Correct"), jstr ("Wrong")]),
      answer := some (jstr (coerceTF (pyStr (q.answer.getD jnull)))) } := by
  unfold typeBranch
  rw [if_neg (by decide), if_pos rfl]

/-- The default branch for the three remaining canonical types. -/
theorem typeBranch_other {ct : String}
    (hct : ct = "Short Answer" ∨ ct = "Fill-in-the-Blank" ∨ ct = "Numerical")
    (q : PyDictQ) :
    typeBranch ct q = .ok { q with
      answer := some (jstr (pyStr (q.answer.getD jnull))) } := by
  rcases hct with h | h | h <;> subst h <;> unfold typeBranch <;>
    rw [if_neg (by decide), if_neg (by decide)]

/-- The estimator only reads the question and answer fields. -/
theorem analyze_congr {q q2 : PyDictQ} (hq : q2.question = q.question)
    (ha : q2.answer = q.answer) :
    analyze_question_difficulty q2 = analyze_question_difficulty q := by
  unfold analyze_question_difficulty
  rw [hq, ha]

/-- Inversion for the difficulty step. -/
theorem difficultyStep_inv {gui : Option String} {q q3 : PyDictQ}
    (h : difficultyStep gui q = .ok q3) :
    ∃ est, analyze_question_difficulty q = .ok est ∧
      q3 = { q with
        difficulty := some (jstr (if (gui.getD ("")) ≠ "" then gui.getD ("") else est)) } := by
  unfold difficultyStep at h
  split at h
  next hg =>
    split at h
    · cases h
    next est hest => cases h; exact ⟨est, hest, by rw [if_pos hg]⟩
  next hg =>
    split at h
    · cases h
    next est hest => cases h; exact ⟨est, hest, by rw [if_neg hg]⟩

/-- Full inversion of a successful `normalize_question`. -/
theorem normalize_ok_inv {q : PyDictQ} {allowed : Option (List JVal)}
    {gui : Option String} {q' : PyDictQ}
    (h : normalize_question q allowed gui = .ok (some q')) :
    ∃ tl q2 q3,
      pyLowerStr (q.qtype.getD (jstr (""))) = .ok tl ∧
      allowedReject allowed (canonType tl) = false ∧
      typeBranch (canonType tl) { q with qtype := some (jstr (canonType tl)) } = .ok q2 ∧
      difficultyStep gui q2 = .ok q3 ∧
      q' = { q3 with topic := some (q3.topic.getD (jstr (""))),
                     subtopic := some (q3.subtopic.getD (jstr (""))) } := by
  unfold normalize_question at h
  split at h
  · cases h
  next tl hl =>
    split at h
    · cases h
    next hrej =>
      split at h
      · cases h
      next q2 hb =>
        split at h
        · cases h
        next q3 hd =>
          refine ⟨tl, q2, q3, hl, ?_, hb, hd, ?_⟩
          · simpa using hrej
          · injection h with h1
            injection h1 with h2
            exact h2.symm

/-- The type stored by a successful normalization. -/
theorem normalize_qtype {q : PyDictQ} {allowed : Option (List JVal)}
    {gui : Option String} {q' : PyDictQ} {tl : String}
    (h : normalize_question q allowed gui = .ok (some q'))
    (hl : pyLowerStr (q.qtype.getD (jstr (""))) = .ok tl) :
    q'.qtype = some (jstr (canonType tl)) := by
  obtain ⟨tl2, q2, q3, hl2, _, hb, hd, hq'⟩ := normalize_ok_inv h
  rw [hl] at hl2
  injection hl2 with htl
  subst htl
  obtain ⟨est, _, hq3⟩ := difficultyStep_inv hd
  have h2 := typeBranch_qtype hb
  subst hq'
  subst hq3
  simpa using h2

/-- Padding appends; it never reorders or drops existing options. -/
theorem padOptions_append : ∀ (f : Nat) (l : List String),
    ∃ pad, padOptions f l = l ++ pad
  | 0, l => ⟨[], by simp [padOptions]⟩
  | f + 1, l => by
      unfold padOptions
      split
      · obtain ⟨pad, hp⟩ := padOptions_append f (l ++ [("Option ") ++ toString (l.length + 1)])
        exact ⟨(("Option ") ++ toString (l.length + 1)) :: pad, by rw [hp]; simp⟩
      · exact ⟨[], by simp⟩

/-- Padding reaches length four unless the fuel runs out first. -/
theorem padOptions_min_len : ∀ (f : Nat) (l : List String),
    min 4 (l.length + f) ≤ (padOptions f l).length
  | 0, l => by simp [padOptions]
  | f + 1, l => by
      unfold padOptions
      split
      next hlt =>
        have := padOptions_min_len f (l ++ [("Option ") ++ toString (l.length + 1)])
        simp only [List.length_append, List.length_singleton] at this
        omega
      next hge => simp only [not_lt] at hge; omega

/-- The repaired MCQ option list always has exactly four entries. -/
theorem mcqFixOptions_length (o : List String) (a : String) :
    (mcqFixOptions o a).length = 4 := by
  unfold mcqFixOptions
  have h4 : ∀ l : List String, 4 ≤ (padOptions 4 l).length := by
    intro l
    have := padOptions_min_len 4 l
    omega
  rw [List.length_take]
  exact Nat.min_eq_left (h4 _)

/-- Membership of an element of a short list in the padded-and-truncated
list. -/
theorem mem_take4_pad {l : List String} {a : String}
    (ha : a ∈ l.take 4) : a ∈ (padOptions 4 l).take 4 := by
  obtain ⟨pad, hp⟩ := padOptions_append 4 l
  rw [hp, List.take_append_eq_append_take]
  exact List.mem_append_left _ ha

/-- The repaired options contain the answer except when the answer sat
only beyond the fourth position of a longer input list. -/
theorem mcqFixOptions_mem (o : List String) (a : String)
    (h : o.length ≤ 4 ∨ a ∉ o ∨ a ∈ o.take 4) : a ∈ mcqFixOptions o a := by
  unfold mcqFixOptions
  by_cases hmem : a ∈ o
  · rw [if_pos hmem]
    apply mem_take4_pad
    rcases h with h | h | h
    · rw [List.take_of_length_le (by omega)]; exact hmem
    · exact absurd hmem h
    · exact h
  · rw [if_neg hmem]
    split
    next hlen =>
      apply mem_take4_pad
      rw [List.take_of_length_le
        (by simp only [List.length_append, List.length_take, List.length_singleton]; omega)]
      exact List.mem_append_right _ (by simp)
    next hlen =>
      apply mem_take4_pad
      rw [List.take_of_length_le
        (by simp only [List.length_append, List.length_singleton]; omega)]
      exact List.mem_append_right _ (by simp)

/-- A length-four option list containing its answer is a fixed point of the
repair. -/
theorem mcqFixOptions_fixpoint {l : List String} {a : String}
    (hmem : a ∈ l) (hlen : l.length = 4) : mcqFixOptions l a = l := by
  unfold mcqFixOptions
  rw [if_pos hmem]
  show List.take 4 (padOptions 4 l) = l
  have hpad : padOptions 4 l = l := by
    unfold padOptions
    rw [if_neg (by omega)]
  rw [hpad, List.take_of_length_le (by omega)]

/-- Stringifying a `jstr`-wrapped list is the identity. -/
theorem map_pyStr_jstr (l : List String) : (l.map jstr).map pyStr = l := by
  induction l with
  | nil => rfl
  | cons x t ih => simp [pyStr, ih]

/-- The membership observer on a `jstr` list agrees with list membership. -/
theorem any_jstr_mem (l : List String) (a : String) :
    ((l.map jstr).any (fun v => jvalEqStr v a) = true) ↔ a ∈ l := by
  induction l with
  | nil => simp
  | cons x t ih =>
      simp only [List.map_cons, List.any_cons, Bool.or_eq_true, ih, List.mem_cons]
      constructor
      · rintro (hx | hx)
        · left; have : x = a := by simpa [jvalEqStr] using hx
          exact this.symm
        · right; exact hx
      · rintro (hx | hx)
        · left; simp [jvalEqStr, hx]
        · right; exact hx

/-- The coercion only produces the two canonical labels. -/
theorem coerceTF_vals (s : String) :
    coerceTF s = "Correct" ∨ coerceTF s = "Wrong" := by
  unfold coerceTF
  show (if pyLower (pyStrip s) = "true" ∨ pyLower (pyStrip s) = "t" ∨
          pyLower (pyStrip s) = "correct" then "Correct" else "Wrong") = "Correct" ∨
       (if pyLower (pyStrip s) = "true" ∨ pyLower (pyStrip s) = "t" ∨
          pyLower (pyStrip s) = "correct" then "Correct" else "Wrong") = "Wrong"
  split
  · left; rfl
  · right; rfl

/-- The two canonical True/False answers are fixed points of the coercion. -/
theorem coerceTF_idem (s : String) : coerceTF (coerceTF s) = coerceTF s := by
  rcases coerceTF_vals s with h | h <;> rw [h] <;> decide

end AiPipeline

-- ----------------------------------------------------------------
-- Record identities (a field update by its current value is a no-op)
-- ----------------------------------------------------------------

theorem setQtype_self {q : PyDictQ} {v : JVal} (h : q.qtype = some v) :
    { q with qtype := some v } = q := by
  cases q; cases h; rfl

theorem setOptions_self {q : PyDictQ} {v : JVal} (h : q.options = some v) :
    { q with options := some v } = q := by
  cases q; cases h; rfl

theorem setAnswer_self {q : PyDictQ} {v : JVal} (h : q.answer = some v) :
    { q with answer := some v } = q := by
  cases q; cases h; rfl

theorem setOptionsAnswer_self {q : PyDictQ} {v w : JVal}
    (ho : q.options = some v) (ha : q.answer = some w) :
    { q with options := some v, answer := some w } = q := by
  cases q; cases ho; cases ha; rfl

theorem setDifficulty_self {q : PyDictQ} {v : JVal} (h : q.difficulty = some v) :
    { q with difficulty := some v } = q := by
  cases q; cases h; rfl

theorem setTopics_self {q : PyDictQ} {v w : JVal}
    (ht : q.topic = some v) (hs : q.subtopic = some w) :
    { q with topic := some v, subtopic := some w } = q := by
  cases q; cases ht; cases hs; rfl

-- ----------------------------------------------------------------
-- Claim theorems
-- ----------------------------------------------------------------

open AiPipeline in
/-- C10: `ai_pipeline.extract_json` returns every non-string input value
unchanged — non-text input bypasses all extraction and parsing steps. -/
theorem claim_C10_nonstring_identity (v : JVal) (h : ∀ s, v ≠ jstr s) :
    AiPipeline.extract_json v = some v := by
  cases v
  case jstr s => exact absurd rfl (h s)
  all_goals rfl

/-- C10 witness: an already-parsed dict comes back unchanged. -/
theorem claim_C10_witness :
    AiPipeline.extract_json (jobj [(("k"), jint 3)]) = some (jobj [(("k"), jint 3)]) :=
  claim_C10_nonstring_identity (jobj [(("k"), jint 3)]) (fun _ h => JVal.noConfusion h)

/-- C4 counterexample: the main pipeline's extractor
(`ai_pipeline.extract_json`, cited by the claim) does NOT recover
`(a: 1, b: null)` from the single-quote/`None` input — its repair replaces
only the quotes, not the `None` literal, so the parse still fails and the
result is none, not the claimed structured value. -/
theorem claim_C4_cex :
    AiPipeline.extract_json (jstr ("\x7b'a': 1, 'b': None\x7d")) = none ∧
    (none : Option JVal) ≠ some (jobj [(("a"), jint 1), (("b"), jnull)]) :=
  ⟨rfl, fun h => Option.noConfusion h⟩

/-- C4 (amended): the quotes-plus-`None` repair lives in
`question_generator.extract_json` (and `question_evaluator`'s copy), where
the claimed behaviour holds: `extract("\x7b'a': 1, 'b': None\x7d")` yields
`(a: 1, b: null)` and `extract("not json at all")` yields none; the main
pipeline's `ai_pipeline.extract_json` replaces only quotes and returns none
on the former input (and none on the latter). -/
theorem claim_C4_extractor_cases :
    QuestionGenerator.extract_json ("\x7b'a': 1, 'b': None\x7d") =
      .ok (some (jobj [(("a"), jint 1), (("b"), jnull)])) ∧
    QuestionGenerator.extract_json ("not json at all") = .ok none ∧
    QuestionEvaluator.extract_json ("\x7b'a': 1, 'b': None\x7d") =
      some (jobj [(("a"), jint 1), (("b"), jnull)]) ∧
    AiPipeline.extract_json (jstr ("\x7b'a': 1, 'b': None\x7d")) = none ∧
    AiPipeline.extract_json (jstr ("not json at all")) = none :=
  ⟨rfl, rfl, rfl, rfl, rfl⟩

/-- C2: for every question and every non-empty caller difficulty D, a
successful `normalize_question` stores exactly D in the difficulty field,
whatever the estimator said and whatever the question carried. -/
theorem claim_C2_difficulty_override (q : PyDictQ) (allowed : Option (List JVal))
    (D : String) (q' : PyDictQ) (hD : D ≠ "")
    (h : AiPipeline.normalize_question q allowed (some D) = .ok (some q')) :
    q'.difficulty = some (jstr D) := by
  obtain ⟨tl, q2, q3, hl, hrej, hb, hd, hq'⟩ := AiPipeline.normalize_ok_inv h
  obtain ⟨est, hest, hq3⟩ := AiPipeline.difficultyStep_inv hd
  subst hq'
  subst hq3
  simp [Option.getD, hD]

/-- Input of the C2 witness: a question the estimator would call Easy. -/
def qC2in : PyDictQ :=
  ⟨some (jstr ("What is 1 + 1?")), some (jstr ("sa")), none,
   some (jstr ("2")), none, none, none⟩

/-- Output of the C2 witness run. -/
def qC2res : PyDictQ :=
  match AiPipeline.normalize_question qC2in none (some ("Hard")) with
  | .ok (some r) => r
  | _ => ⟨none, none, none, none, none, none, none⟩

/-- C2 witness: a question whose estimator output would be "Easy" still
receives the caller's "Hard". -/
theorem claim_C2_witness :
    AiPipeline.normalize_question qC2in none (some ("Hard")) = .ok (some qC2res) ∧
    qC2res.difficulty = some (jstr ("Hard")) :=
  ⟨rfl, claim_C2_difficulty_override qC2in none ("Hard") qC2res (by decide) rfl⟩

/-- Input of the C3 counterexample: a question typed "calculation". -/
def qC3cex : PyDictQ :=
  ⟨some (jstr ("q")), some (jstr ("calculation")), none, some (jstr ("7")),
   none, none, none⟩

/-- C3 counterexample: a question whose raw type is "calculation" is
normalized to canonical type "Short Answer", not the "Numerical" the claim
asserts — the code's synonym table for Numerical is only
num/numerical/numeric. -/
theorem claim_C3_cex :
    (AiPipeline.normalize_question qC3cex none (some ("Hard"))).map
        (Option.map PyDictQ.qtype) = .ok (some (some (jstr ("Short Answer")))) ∧
    ("Short Answer" : String) ≠ "Numerical" :=
  ⟨rfl, by decide⟩

/-- C3 (amended): for every question whose raw type value is a string s,
a successful normalization stores exactly the canonical type given by the
case-insensitive synonym table WITHOUT "calculation" ("calculation" falls
through to the "Short Answer" default like every other unrecognized
string, and is not an error); in particular num/numerical/numeric map to
"Numerical". -/
theorem claim_C3_type_synonyms (q : PyDictQ) (s : String)
    (allowed : Option (List JVal)) (gui : Option String) (q' : PyDictQ)
    (ht : q.qtype.getD (jstr ("")) = jstr s)
    (h : AiPipeline.normalize_question q allowed gui = .ok (some q')) :
    q'.qtype = some (jstr (specTypeMap s)) ∧
    specTypeMap ("num") = "Numerical" ∧
    specTypeMap ("Numerical") = "Numerical" ∧
    specTypeMap ("numeric") = "Numerical" ∧
    specTypeMap ("calculation") = "Short Answer" := by
  refine ⟨?_, by decide, by decide, by decide, by decide⟩
  have hl : pyLowerStr (q.qtype.getD (jstr (""))) = .ok (pyLower s) := by
    rw [ht]; rfl
  have := AiPipeline.normalize_qtype h hl
  rw [this]
  rfl

/-- Input of the C3 witness: raw type "TF" (case-insensitive synonym). -/
def qC3w : PyDictQ :=
  ⟨some (jstr ("q")), some (jstr ("TF")), none, some (jstr ("true")),
   none, none, none⟩

/-- Output of the C3 witness run. -/
def qC3wres : PyDictQ :=
  match AiPipeline.normalize_question qC3w none (some ("Easy")) with
  | .ok (some r) => r
  | _ => ⟨none, none, none, none, none, none, none⟩

/-- C3 witness: "TF" resolves, case-insensitively, to "True/False". -/
theorem claim_C3_witness :
    AiPipeline.normalize_question qC3w none (some ("Easy")) = .ok (some qC3wres) ∧
    (qC3wres.qtype = some (jstr (specTypeMap ("TF"))) ∧
     specTypeMap ("num") = "Numerical" ∧
     specTypeMap ("Numerical") = "Numerical" ∧
     specTypeMap ("numeric") = "Numerical" ∧
     specTypeMap ("calculation") = "Short Answer") :=
  ⟨rfl, claim_C3_type_synonyms qC3w ("TF") none (some ("Easy")) qC3wres rfl rfl⟩

/-- C5 counterexample: in `question_evaluator.critique_questions`
(cited by the claim), exhausting the retry budget on malformed output
falls back to APPROVING the question with comment "Fallback approval" —
not to the unapproved "Critique failed" record the claim asserts. -/
theorem claim_C5_cex :
    QuestionEvaluator.critique_questions [some ("x"), some ("x")] [jint 0] =
      [jobj [(("approved"), jbool true), (("comments"), jstr ("Fallback approval"))]] ∧
    pyTruthy ((jlookup
      [(("approved"), jbool true), (("comments"), jstr ("Fallback approval"))]
      ("approved")).getD (jbool false)) = true :=
  ⟨rfl, rfl⟩

/-- C5 (amended): the cautious per-question fallback is the MAIN pipeline's
(`ai_pipeline.critique_questions`): whenever the model reply does not parse
to a list of exactly one record per question, it returns one record per
question with approved = false and the placeholder issue "Critique failed";
`ai_pipeline.batch_critique`'s fallback is instead permissive, flagging
nothing.  (The standalone evaluator module's same-named function instead
approves everything — see the counterexample.) -/
theorem claim_C5_critique_fallbacks (raw braw : String) (qs bqs : List JVal)
    (h1 : ∀ xs, AiPipeline.extract_json (jstr raw) = some (jarr xs) →
          xs.length ≠ qs.length)
    (h2 : ∀ kvs, AiPipeline.extract_json (jstr braw) = some (jobj kvs) →
          jlookup kvs ("flagged") = none) :
    AiPipeline.critique_questions raw qs =
      qs.map (fun _ => AiPipeline.critiqueFailedRecord) ∧
    (AiPipeline.critique_questions raw qs).length = qs.length ∧
    AiPipeline.batch_critique braw bqs =
      jobj [(("summary"), jstr ("Critique failed")), (("flagged"), jarr [])] := by
  have hc : AiPipeline.critique_questions raw qs =
      qs.map (fun _ => AiPipeline.critiqueFailedRecord) := by
    unfold AiPipeline.critique_questions
    cases hx : AiPipeline.extract_json (jstr raw) with
    | none => rfl
    | some v =>
        cases v with
        | jarr xs =>
            show (if xs.length = qs.length then xs
                  else qs.map (fun _ => AiPipeline.critiqueFailedRecord)) =
              qs.map (fun _ => AiPipeline.critiqueFailedRecord)
            rw [if_neg (h1 xs hx)]
        | jnull => rfl
        | jbool b => rfl
        | jint n => rfl
        | jfloat x => rfl
        | jstr s => rfl
        | jobj kvs => rfl
  refine ⟨hc, by rw [hc]; simp, ?_⟩
  unfold AiPipeline.batch_critique
  cases hx : AiPipeline.extract_json (jstr braw) with
  | none => rfl
  | some v =>
      cases v with
      | jobj kvs =>
          show (if (jlookup kvs ("flagged")).isSome = true then jobj kvs
                else jobj [(("summary"), jstr ("Critique failed")), (("flagged"), jarr [])]) =
            jobj [(("summary"), jstr ("Critique failed")), (("flagged"), jarr [])]
          rw [h2 kvs hx]
          rfl
      | jnull => rfl
      | jbool b => rfl
      | jint n => rfl
      | jfloat x => rfl
      | jstr s => rfl
      | jarr xs => rfl

/-- C5 witness: a reply that parses to nothing triggers both fallbacks on a
one-question batch. -/
theorem claim_C5_witness :
    AiPipeline.critique_questions ("garbage") [jint 0] =
      [AiPipeline.critiqueFailedRecord] ∧
    (AiPipeline.critique_questions ("garbage") [jint 0]).length = 1 ∧
    AiPipeline.batch_critique ("garbage") [jint 0] =
      jobj [(("summary"), jstr ("Critique failed")), (("flagged"), jarr [])] :=
  claim_C5_critique_fallbacks ("garbage") ("garbage") [jint 0] [jint 0]
    (fun xs h => by
      rw [(rfl : AiPipeline.extract_json (jstr ("garbage")) = none)] at h
      exact Option.noConfusion h)
    (fun kvs h => by
      rw [(rfl : AiPipeline.extract_json (jstr ("garbage")) = none)] at h
      exact Option.noConfusion h)

/-- C8: the difficulty estimator classifies by the maximum numeric literal
of the lowered question-plus-answer text and the cue-gated step count,
exactly as the claim's table states. -/
theorem claim_C8_difficulty_estimator (q : PyDictQ) (qs : String)
    (h : q.question.getD (jstr ("")) = jstr qs) :
    AiPipeline.analyze_question_difficulty q =
      .ok (specClassify
            (specMaxLiteral (specText qs (q.answer.getD (jstr ("")))))
            (specStepCount (specText qs (q.answer.getD (jstr ("")))))) := by
  unfold AiPipeline.analyze_question_difficulty
  rw [h]
  rfl

/-- Input of the C8 witness (the spec's own example). -/
def qC8w : PyDictQ :=
  ⟨some (jstr ("What is 5 + 3?")), none, none, some (jstr ("8")), none, none, none⟩

/-- C8 witness: "What is 5 + 3?" with answer 8 is classified Easy
(max = 8 < 20, steps = 1). -/
theorem claim_C8_witness :
    AiPipeline.analyze_question_difficulty qC8w =
      .ok (specClassify
            (specMaxLiteral (specText ("What is 5 + 3?") (qC8w.answer.getD (jstr ("")))))
            (specStepCount (specText ("What is 5 + 3?") (qC8w.answer.getD (jstr (""))))) ) ∧
    AiPipeline.analyze_question_difficulty qC8w = .ok ("Easy") :=
  ⟨claim_C8_difficulty_estimator qC8w ("What is 5 + 3?") rfl, rfl⟩

/-- A generator reply used by the concrete pipeline runs: a quiz with one
valid MCQ question. -/
def genRawOk : String :=
  "\x7b\"settings\": \x7b\x7d, \"questions\": [\x7b\"question\": \"What is 2 + 2\", \"type\": \"mcq\", \"options\": [\"3\", \"4\"], \"answer\": \"4\"\x7d]\x7d"

/-- Oracle of the C9 counterexample: the batch critique flags index 5 of a
one-question batch; the targeted critique approves whatever it sees. -/
def oC9 : AiPipeline.PipeOracle :=
  ⟨[genRawOk], "\x7b\"flagged\": [5]\x7d",
   fun _ => "[\x7b\"approved\": true\x7d]",
   fun _ _ => "", fun _ _ => "", [0]⟩

/-- C9 counterexample: in the main pipeline the batch critique's flagged
list is used to index the questions list without a bounds check — with
flagged index 5 on a 1-question batch, `generate_questions_simple` raises
IndexError instead of completing. -/
theorem claim_C9_cex :
    AiPipeline.batch_critique ("\x7b\"flagged\": [5]\x7d") [] =
      jobj [(("flagged"), jarr [jint 5])] ∧
    AiPipeline.generate_questions_simple oC9 5 ("Easy") = .error .indexError :=
  ⟨rfl, rfl⟩

/-- C9 (amended): the variant that never blocks is
`question_evaluator.evaluate_and_refine_questions`: for EVERY batch-critique
result — any flagged list, out-of-range indices included — and any critique
replies, it completes without an exception and returns the questions
unchanged (its index accesses are guarded and the whole body sits in
`try/except`); `ai_pipeline`'s orchestrator instead raises IndexError on an
out-of-range flagged index (see the counterexample). -/
theorem claim_C9_evaluator_never_blocks (braws craws : List (Option String))
    (questions : List JVal) :
    QuestionEvaluator.evaluate_and_refine_questions braws craws questions =
      questions := by
  unfold QuestionEvaluator.evaluate_and_refine_questions
  split
  · rfl
  · split <;> rfl

/-- C6: whenever `generate_questions_simple` returns a quiz at all, the
final question list was truncated by `[:num_questions]`, so its length is
at most the requested count. -/
theorem claim_C6_quiz_size_bound (o : AiPipeline.PipeOracle) (N : Nat) (d : String)
    (quiz : JVal) (final : List PyDictQ)
    (h : AiPipeline.generate_questions_simple o N d = .ok (some (quiz, final))) :
    final.length ≤ N := by
  unfold AiPipeline.generate_questions_simple at h
  split at h
  · cases h
  · cases h
  next quiz0 =>
    split at h
    · cases h
    · split at h
      · cases h
      next f hf =>
          injection h with h1
          injection h1 with h2
          have h3 : f.take N = final := congrArg Prod.snd h2
          rw [← h3]
          exact List.length_take_le N f

/-- Oracle of the C6 witness: generation yields one valid question, the
batch critique reply is garbage (fallback: flag nothing), the targeted
critique approves. -/
def oC6 : AiPipeline.PipeOracle :=
  ⟨[genRawOk], "garbage",
   fun _ => "[\x7b\"approved\": true\x7d]",
   fun _ _ => "", fun _ _ => "", [0]⟩

/-- Result of the C6 witness run. -/
def rC6 : JVal × List PyDictQ :=
  match AiPipeline.generate_questions_simple oC6 3 ("Easy") with
  | .ok (some r) => r
  | _ => (jnull, [])

/-- C6 witness: requesting 3 questions when only 1 valid question was
produced returns the partial 1-question quiz (no exception), within the
bound. -/
theorem claim_C6_witness :
    AiPipeline.generate_questions_simple oC6 3 ("Easy") =
      .ok (some (rC6.1, rC6.2)) ∧
    rC6.2.length ≤ 3 ∧ rC6.2.length < 3 :=
  ⟨rfl, claim_C6_quiz_size_bound oC6 3 ("Easy") rC6.1 rC6.2 rfl, by decide⟩

/-- C1 counterexample input: an MCQ whose five options contain the answer
only in the fifth position. -/
def qC1cex : PyDictQ :=
  ⟨some (jstr ("q")), some (jstr ("mcq")),
   some (jarr [jstr ("a"), jstr ("b"), jstr ("c"), jstr ("d"), jstr ("e")]),
   some (jstr ("e")), none, none, none⟩

/-- C1 counterexample: normalization truncates the options to four AFTER
the membership check, so the returned MCQ has 4 options but its answer "e"
is NOT among them — the claimed invariant `answer ∈ options` fails. -/
theorem claim_C1_cex :
    (AiPipeline.normalize_question qC1cex none (some ("Easy"))).map
        (Option.map optionCount) = .ok (some (some 4)) ∧
    (AiPipeline.normalize_question qC1cex none (some ("Easy"))).map
        (Option.map answerInOptions) = .ok (some false) :=
  ⟨rfl, rfl⟩

/-- C1 (amended): a normalized MCQ always has exactly four options, and the
(stringified) answer is among them UNLESS the input supplied more than four
options with the answer present only beyond the fourth position — i.e.
membership holds whenever the input options numbered at most four, or did
not contain the answer at all (splice-in), or contained it among the first
four (truncation-safe). -/
theorem claim_C1_mcq_invariant (q : PyDictQ) (allowed : Option (List JVal))
    (gui : Option String) (q' : PyDictQ) (opts : List String)
    (h : AiPipeline.normalize_question q allowed gui = .ok (some q'))
    (hty : q'.qtype = some (jstr ("MCQ")))
    (ho : pyIterStrs (q.options.getD (jarr [])) = .ok opts) :
    optionCount q' = some 4 ∧
    ((opts.length ≤ 4 ∨ pyStr (q.answer.getD jnull) ∉ opts ∨
        pyStr (q.answer.getD jnull) ∈ opts.take 4) →
      answerInOptions q' = true) := by
  obtain ⟨tl, q2, q3, hl, hrej, hb, hd, hq'⟩ := AiPipeline.normalize_ok_inv h
  obtain ⟨est, hest, hq3⟩ := AiPipeline.difficultyStep_inv hd
  have hqt := AiPipeline.normalize_qtype h hl
  rw [hty] at hqt
  have hct : AiPipeline.canonType tl = "MCQ" := by
    injection hqt with h1
    injection h1 with h2
    exact h2.symm
  rw [hct] at hb
  obtain ⟨opts2, ho2, hq2⟩ := AiPipeline.typeBranch_mcq_inv hb
  have ho2' : pyIterStrs (q.options.getD (jarr [])) = .ok opts2 := ho2
  have hoo : opts2 = opts := by
    have h5 := ho.symm.trans ho2'
    injection h5 with h6
    exact h6.symm
  subst hoo
  subst hq'
  subst hq3
  subst hq2
  constructor
  · simp [optionCount, AiPipeline.mcqFixOptions_length]
  · intro hcond
    have hmem := AiPipeline.mcqFixOptions_mem opts2 (pyStr (q.answer.getD jnull)) hcond
    simp only [answerInOptions]
    exact (AiPipeline.any_jstr_mem _ _).mpr hmem

/-- C1 witness input: two options not containing the answer. -/
def qC1w : PyDictQ :=
  ⟨some (jstr ("w")), some (jstr ("mcq")),
   some (jarr [jstr ("a"), jstr ("b")]), some (jstr ("c")), none, none, none⟩

/-- Output of the C1 witness run. -/
def qC1wres : PyDictQ :=
  match AiPipeline.normalize_question qC1w none (some ("Easy")) with
  | .ok (some r) => r
  | _ => ⟨none, none, none, none, none, none, none⟩

/-- C1 witness: a 2-option MCQ gets its answer spliced in and is padded to
exactly four options containing the answer. -/
theorem claim_C1_witness :
    AiPipeline.normalize_question qC1w none (some ("Easy")) = .ok (some qC1wres) ∧
    optionCount qC1wres = some 4 ∧
    answerInOptions qC1wres = true :=
  ⟨rfl,
   (claim_C1_mcq_invariant qC1w none (some ("Easy")) qC1wres [("a"), ("b")]
      rfl rfl rfl).1,
   (claim_C1_mcq_invariant qC1w none (some ("Easy")) qC1wres [("a"), ("b")]
      rfl rfl rfl).2 (Or.inl (by decide))⟩

namespace AiPipeline

/-- A question whose difficulty field already holds the value the
difficulty step would assign is one of its fixed points. -/
theorem difficultyStep_fixpoint {gui : Option String} {q' : PyDictQ} {est : String}
    (hana : analyze_question_difficulty q' = .ok est)
    (hdf : q'.difficulty =
      some (jstr (if (gui.getD ("")) ≠ "" then gui.getD ("") else est))) :
    difficultyStep gui q' = .ok q' := by
  unfold difficultyStep
  split
  next hg =>
    rw [hana]
    exact congrArg Except.ok (setDifficulty_self (by rwa [if_pos hg] at hdf))
  next hg =>
    rw [hana]
    exact congrArg Except.ok (setDifficulty_self (by rwa [if_neg hg] at hdf))

/-- An MCQ whose four options (as strings) already contain its stringified
answer is a fixed point of the MCQ branch. -/
theorem typeBranch_mcq_fixpoint {q' : PyDictQ} {l : List String}
    (hop : q'.options = some (jarr (l.map jstr)))
    (hlen : l.length = 4)
    (hmem : pyStr (q'.answer.getD jnull) ∈ l) :
    typeBranch ("MCQ") q' = .ok q' := by
  have hiter : pyIterStrs (q'.options.getD (jarr [])) = .ok l := by
    rw [hop]
    show Except.ok ((l.map jstr).map pyStr) = Except.ok l
    rw [map_pyStr_jstr]
  unfold typeBranch
  rw [if_pos rfl, hiter]
  show Except.ok { q' with options := some (jarr
      ((mcqFixOptions l (pyStr (q'.answer.getD jnull))).map jstr)) } = Except.ok q'
  rw [mcqFixOptions_fixpoint hmem hlen]
  exact congrArg Except.ok (setOptions_self hop)

/-- A canonical True/False question is a fixed point of the True/False
branch. -/
theorem typeBranch_tf_fixpoint {q' : PyDictQ} {y : String}
    (hop : q'.options = some (jarr [jstr ("Correct"), jstr ("Wrong")]))
    (ha : q'.answer = some (jstr (coerceTF y))) :
    typeBranch ("True/False") q' = .ok q' := by
  rw [typeBranch_tf]
  have : coerceTF (pyStr (q'.answer.getD jnull)) = coerceTF y := by
    rw [ha]
    show coerceTF (coerceTF y) = coerceTF y
    exact coerceTF_idem y
  rw [this]
  exact congrArg Except.ok (setOptionsAnswer_self hop (by rw [ha]))

/-- A question whose answer is already a string is a fixed point of the
default branch. -/
theorem typeBranch_other_fixpoint {ct : String} {q' : PyDictQ} {y : String}
    (hct : ct = "Short Answer" ∨ ct = "Fill-in-the-Blank" ∨ ct = "Numerical")
    (ha : q'.answer = some (jstr y)) :
    typeBranch ct q' = .ok q' := by
  rw [typeBranch_other hct]
  have : pyStr (q'.answer.getD jnull) = y := by rw [ha]; rfl
  rw [this]
  exact congrArg Except.ok (setAnswer_self ha)

/-- A question that is a fixed point of every stage is a fixed point of
the whole normalizer. -/
theorem normalize_fixpoint {q' : PyDictQ} {allowed : Option (List JVal)}
    {gui : Option String} {ct : String}
    (hqt : q'.qtype = some (jstr ct))
    (hcanon : canonType (pyLower ct) = ct)
    (hrej : allowedReject allowed ct = false)
    (hbranch : typeBranch ct q' = .ok q')
    (hdiff : difficultyStep gui q' = .ok q')
    (htop : ∃ v, q'.topic = some v)
    (hsub : ∃ v, q'.subtopic = some v) :
    normalize_question q' allowed gui = .ok (some q') := by
  obtain ⟨tv, htv⟩ := htop
  obtain ⟨sv, hsv⟩ := hsub
  unfold normalize_question
  rw [hqt]
  show (if allowedReject allowed (canonType (pyLower ct)) = true then Except.ok none
        else
          match typeBranch (canonType (pyLower ct))
              { q' with qtype := some (jstr (canonType (pyLower ct))) } with
          | .error e => .error e
          | .ok q2 =>
              match difficultyStep gui q2 with
              | .error e => .error e
              | .ok q3 =>
                  .ok (some { q3 with
                              topic := some (q3.topic.getD (jstr (""))),
                              subtopic := some (q3.subtopic.getD (jstr (""))) })) =
      Except.ok (some q')
  rw [hcanon, hrej, if_neg (by simp), setQtype_self hqt, hbranch]
  show (match difficultyStep gui q' with
        | .error e => .error e
        | .ok q3 =>
            Except.ok (some { q3 with
                        topic := some (q3.topic.getD (jstr (""))),
                        subtopic := some (q3.subtopic.getD (jstr (""))) })) =
      Except.ok (some q')
  rw [hdiff]
  show Except.ok (some { q' with
          topic := some (q'.topic.getD (jstr (""))),
          subtopic := some (q'.subtopic.getD (jstr (""))) }) = Except.ok (some q')
  rw [htv, hsv]
  show Except.ok (some { q' with topic := some tv, subtopic := some sv }) =
    Except.ok (some q')
  rw [setTopics_self htv hsv]

end AiPipeline

/-- C7 (amended): renormalizing an output of `normalize_question` (same
allowed types, same target difficulty) returns it completely unchanged,
PROVIDED that (for MCQ) its answer is among its options; the sole
exception is an MCQ output whose answer was truncated away (see the
counterexample), where a second pass splices the answer back in. -/
theorem claim_C7_idempotence (q : PyDictQ) (allowed : Option (List JVal))
    (gui : Option String) (q' : PyDictQ)
    (h : AiPipeline.normalize_question q allowed gui = .ok (some q'))
    (hm : q'.qtype = some (jstr ("MCQ")) → answerInOptions q' = true) :
    AiPipeline.normalize_question q' allowed gui = .ok (some q') := by
  obtain ⟨tl, q2, q3, hl, hrej, hb, hd, hq'⟩ := AiPipeline.normalize_ok_inv h
  obtain ⟨est, hest, hq3⟩ := AiPipeline.difficultyStep_inv hd
  have hqt : q'.qtype = some (jstr (AiPipeline.canonType tl)) :=
    AiPipeline.normalize_qtype h hl
  have hq'q2 : q'.question = q2.question := by subst hq'; subst hq3; rfl
  have ha'q2 : q'.answer = q2.answer := by subst hq'; subst hq3; rfl
  have hana : AiPipeline.analyze_question_difficulty q' = .ok est :=
    (AiPipeline.analyze_congr hq'q2 ha'q2).trans hest
  have hdf : q'.difficulty =
      some (jstr (if (gui.getD ("")) ≠ "" then gui.getD ("") else est)) := by
    subst hq'; subst hq3; rfl
  have htop : ∃ v, q'.topic = some v := by subst hq'; exact ⟨_, rfl⟩
  have hsub : ∃ v, q'.subtopic = some v := by subst hq'; exact ⟨_, rfl⟩
  refine AiPipeline.normalize_fixpoint hqt (AiPipeline.canonType_idem tl) hrej ?_
    (AiPipeline.difficultyStep_fixpoint hana hdf) htop hsub
  rcases AiPipeline.canonType_vals tl with hv | hv | hv | hv | hv
  · -- MCQ
    rw [hv] at hb hqt ⊢
    obtain ⟨opts, hoi, hq2⟩ := AiPipeline.typeBranch_mcq_inv hb
    have hop : q'.options = some (jarr
        ((AiPipeline.mcqFixOptions opts (pyStr (q.answer.getD jnull))).map jstr)) := by
      subst hq'; subst hq3; subst hq2; rfl
    have hmem : pyStr (q'.answer.getD jnull) ∈
        AiPipeline.mcqFixOptions opts (pyStr (q.answer.getD jnull)) := by
      have hao := hm hqt
      rw [answerInOptions, hop] at hao
      exact (AiPipeline.any_jstr_mem _ _).mp hao
    exact AiPipeline.typeBranch_mcq_fixpoint hop
      (AiPipeline.mcqFixOptions_length _ _) hmem
  · -- True/False
    rw [hv] at hb ⊢
    rw [AiPipeline.typeBranch_tf] at hb
    injection hb with hb2
    have hop : q'.options = some (jarr [jstr ("Correct"), jstr ("Wrong")]) := by
      subst hb2; subst hq'; subst hq3; rfl
    have hans : q'.answer =
        some (jstr (AiPipeline.coerceTF (pyStr (q.answer.getD jnull)))) := by
      subst hb2; subst hq'; subst hq3; rfl
    exact AiPipeline.typeBranch_tf_fixpoint hop hans
  · -- Short Answer
    rw [hv] at hb ⊢
    rw [AiPipeline.typeBranch_other (Or.inl rfl)] at hb
    injection hb with hb2
    have hans : q'.answer = some (jstr (pyStr (q.answer.getD jnull))) := by
      subst hb2; subst hq'; subst hq3; rfl
    exact AiPipeline.typeBranch_other_fixpoint (Or.inl rfl) hans
  · -- Fill-in-the-Blank
    rw [hv] at hb ⊢
    rw [AiPipeline.typeBranch_other (Or.inr (Or.inl rfl))] at hb
    injection hb with hb2
    have hans : q'.answer = some (jstr (pyStr (q.answer.getD jnull))) := by
      subst hb2; subst hq'; subst hq3; rfl
    exact AiPipeline.typeBranch_other_fixpoint (Or.inr (Or.inl rfl)) hans
  · -- Numerical
    rw [hv] at hb ⊢
    rw [AiPipeline.typeBranch_other (Or.inr (Or.inr rfl))] at hb
    injection hb with hb2
    have hans : q'.answer = some (jstr (pyStr (q.answer.getD jnull))) := by
      subst hb2; subst hq'; subst hq3; rfl
    exact AiPipeline.typeBranch_other_fixpoint (Or.inr (Or.inr rfl)) hans

/-- C7 counterexample input: the truncation case of C1 (five options,
answer only in fifth position). -/
def qC7a : PyDictQ :=
  ⟨some (jstr ("q")), some (jstr ("mcq")),
   some (jarr [jstr ("a"), jstr ("b"), jstr ("c"), jstr ("d"), jstr ("e")]),
   some (jstr ("e")), none, none, none⟩

/-- The normalized (and `is_valid`) output of the C7 counterexample input. -/
def qC7b : PyDictQ :=
  match AiPipeline.normalize_question qC7a none (some ("Easy")) with
  | .ok (some r) => r
  | _ => ⟨none, none, none, none, none, none, none⟩

/-- C7 counterexample: `qC7b` is a valid output of `normalize_question`,
yet renormalizing it with the same arguments changes its options (the
second pass splices the lost answer back in, replacing the fourth option)
— so normalization is NOT idempotent on all valid outputs. -/
theorem claim_C7_cex :
    AiPipeline.normalize_question qC7a none (some ("Easy")) = .ok (some qC7b) ∧
    AiPipeline.is_valid_question qC7b = .ok true ∧
    optStrings qC7b = [("a"), ("b"), ("c"), ("d")] ∧
    (AiPipeline.normalize_question qC7b none (some ("Easy"))).map
        (Option.map optStrings) = .ok (some [("a"), ("b"), ("c"), ("e")]) ∧
    ([("a"), ("b"), ("c"), ("e")] : List String) ≠ [("a"), ("b"), ("c"), ("d")] :=
  ⟨rfl, rfl, rfl, rfl, by decide⟩

/-- C7 witness input: a two-option MCQ whose normalization keeps the
answer among the options. -/
def qC7w : PyDictQ :=
  ⟨some (jstr ("w")), some (jstr ("mcq")),
   some (jarr [jstr ("3"), jstr ("4")]), some (jstr ("4")), none, none, none⟩

/-- Output of the C7 witness run. -/
def qC7wres : PyDictQ :=
  match AiPipeline.normalize_question qC7w none (some ("Easy")) with
  | .ok (some r) => r
  | _ => ⟨none, none, none, none, none, none, none⟩

/-- C7 witness: renormalizing the normalized question returns it
unchanged. -/
theorem claim_C7_witness :
    AiPipeline.normalize_question qC7w none (some ("Easy")) = .ok (some qC7wres) ∧
    AiPipeline.normalize_question qC7wres none (some ("Easy")) = .ok (some qC7wres) :=
  ⟨rfl, claim_C7_idempotence qC7w none (some ("Easy")) qC7wres rfl (fun _ => rfl)⟩

